import Mathlib

/-!
Shallow embedding of the SlingshotGame ("Soccer Stars") core: the per-frame
physics tick of `updatePhysics` in `src/App.jsx`, the remote-snapshot handler
`gameStateUpdated` of the multiplayer client, and the shot planner
`calculateAIMove` of `src/ai/GameAI.js` (second, difficulty-aware copy).

Numbers are embedded in an arbitrary linear ordered field `α` (instantiated at
`ℚ` for executable witnesses and at `ℝ` for statements that need the actual
square root and arctangent).  The JavaScript calls to `Math.sqrt`, `Math.atan2`,
`Math.sin`, `Math.cos` and `Math.PI` are passed in explicitly: the physics tick
takes the square-root function as a parameter, and the planner takes a
`MathOps` record; at `ℝ` these are instantiated with `Real.sqrt`,
`Real.arctan`-based atan2, `Real.sin`, `Real.cos` and `π`.
-/

namespace Slingshot

section Model

variable {α : Type} [LinearOrderedField α]

/-- A 2-d vector, as the `{x, y}` object literals of the source. -/
structure Vec (α : Type) where
  x : α
  y : α
deriving DecidableEq

/-- The score object `{team1, team2}` of `initialGameState`. -/
structure Score where
  team1 : ℕ
  team2 : ℕ
deriving DecidableEq

/-- A disc (the source calls every disc a "ball"): `{id, pos, vel, size, color,
isPlayer, team}` from `initialGameState` in `src/App.jsx`. `team` is `null` for
the ball, `1` or `2` for player discs. -/
structure Ball (α : Type) where
  id : String
  pos : Vec α
  vel : Vec α
  size : α
  color : String
  isPlayer : Bool
  team : Option ℤ
deriving DecidableEq

/-- The game state of `src/App.jsx`:
`{balls, currentTeam, selectedPlayerId, isMoving, score, gameMode, aiDifficulty}`. -/
structure GameState (α : Type) where
  balls : List (Ball α)
  currentTeam : ℤ
  selectedPlayerId : Option String
  isMoving : Bool
  score : Score
  gameMode : String
  aiDifficulty : String
deriving DecidableEq

/-! Constants from `src/constants.js`. -/

def PLAYER_SIZE : α := 40

def BALL_SIZE : α := 30

def MAX_PULL_DISTANCE : α := 150

def POWER_FACTOR : α := 0.2

def DAMPING_FACTOR : α := 0.985

def WALL_BOUNCE_FACTOR : α := 0.85

def BALL_COLLISION_BOUNCE_FACTOR : α := 0.98

def MIN_VELOCITY_THRESHOLD : α := 0.05

def GOAL_HEIGHT : α := 100

/-- `initialGameState(gameMode)` from `src/App.jsx`: the fixed 400×600 layout
template (ball at centre, three red discs at 80% height, three blue discs at
20% height), team 1 to act, score 0–0, hard AI. -/
def initialGameState (gameMode : String) : GameState α :=
  let fieldWidth : α := 400
  let fieldHeight : α := 600
  let ball : Ball α :=
    { id := "ball", pos := ⟨fieldWidth / 2, fieldHeight / 2⟩, vel := ⟨0, 0⟩,
      size := BALL_SIZE, color := "bg-white", isPlayer := false, team := none }
  let team1Players : List (Ball α) :=
    [ { id := "team1-player1", pos := ⟨fieldWidth * 0.25, fieldHeight * 0.8⟩, vel := ⟨0, 0⟩,
        size := PLAYER_SIZE, color := "bg-red-500", isPlayer := true, team := some 1 },
      { id := "team1-player2", pos := ⟨fieldWidth * 0.5, fieldHeight * 0.8⟩, vel := ⟨0, 0⟩,
        size := PLAYER_SIZE, color := "bg-red-500", isPlayer := true, team := some 1 },
      { id := "team1-player3", pos := ⟨fieldWidth * 0.75, fieldHeight * 0.8⟩, vel := ⟨0, 0⟩,
        size := PLAYER_SIZE, color := "bg-red-500", isPlayer := true, team := some 1 } ]
  let team2Players : List (Ball α) :=
    [ { id := "team2-player1", pos := ⟨fieldWidth * 0.25, fieldHeight * 0.2⟩, vel := ⟨0, 0⟩,
        size := PLAYER_SIZE, color := "bg-blue-500", isPlayer := true, team := some 2 },
      { id := "team2-player2", pos := ⟨fieldWidth * 0.5, fieldHeight * 0.2⟩, vel := ⟨0, 0⟩,
        size := PLAYER_SIZE, color := "bg-blue-500", isPlayer := true, team := some 2 },
      { id := "team2-player3", pos := ⟨fieldWidth * 0.75, fieldHeight * 0.2⟩, vel := ⟨0, 0⟩,
        size := PLAYER_SIZE, color := "bg-blue-500", isPlayer := true, team := some 2 } ]
  { balls := ball :: (team1Players ++ team2Players),
    currentTeam := 1,
    selectedPlayerId := none,
    isMoving := false,
    score := ⟨0, 0⟩,
    gameMode := gameMode,
    aiDifficulty := "hard" }

/-- `new_v1n` of the disc-disc collision response in `updatePhysics`:
`(v1n * (1 - restitution) + 2 * restitution * v2n) / 2`. -/
def new_v1n (restitution v1n v2n : α) : α :=
  (v1n * (1 - restitution) + 2 * restitution * v2n) / 2

/-- `new_v2n` of the disc-disc collision response in `updatePhysics`. -/
def new_v2n (restitution v1n v2n : α) : α :=
  (v2n * (1 - restitution) + 2 * restitution * v1n) / 2

/-- One iteration of the pairwise disc-disc collision loop of `updatePhysics`:
if the discs overlap (and the squared distance exceeds the `0.001` degeneracy
guard) separate them along the contact normal and exchange damped normal
velocity components; otherwise leave both discs untouched.  `sqrtF` stands for
`Math.sqrt`. -/
def collidePair (sqrtF : α → α) (ball1 ball2 : Ball α) : Ball α × Ball α :=
  let radius1 := ball1.size / 2
  let radius2 := ball2.size / 2
  let dx := ball2.pos.x - ball1.pos.x
  let dy := ball2.pos.y - ball1.pos.y
  let distanceSq := dx * dx + dy * dy
  let minDistance := radius1 + radius2
  let minDistanceSq := minDistance * minDistance
  if distanceSq < minDistanceSq ∧ 0.001 < distanceSq then
    let distance := sqrtF distanceSq
    let overlap := minDistance - distance
    let nx := dx / distance
    let ny := dy / distance
    let tx := -ny
    let ty := nx
    let v1n := ball1.vel.x * nx + ball1.vel.y * ny
    let v1t := ball1.vel.x * tx + ball1.vel.y * ty
    let v2n := ball2.vel.x * nx + ball2.vel.y * ny
    let v2t := ball2.vel.x * tx + ball2.vel.y * ty
    let nv1n := new_v1n BALL_COLLISION_BOUNCE_FACTOR v1n v2n
    let nv2n := new_v2n BALL_COLLISION_BOUNCE_FACTOR v1n v2n
    ({ ball1 with
        pos := ⟨ball1.pos.x - nx * overlap * 0.5, ball1.pos.y - ny * overlap * 0.5⟩,
        vel := ⟨nv1n * nx + v1t * tx, nv1n * ny + v1t * ty⟩ },
     { ball2 with
        pos := ⟨ball2.pos.x + nx * overlap * 0.5, ball2.pos.y + ny * overlap * 0.5⟩,
        vel := ⟨nv2n * nx + v2t * tx, nv2n * ny + v2t * ty⟩ })
  else (ball1, ball2)

/-- Apply `collidePair` to the discs at positions `ij.1 < ij.2` of the list,
writing both results back (the JavaScript loop mutates `newBalls` in place). -/
def pairStep (sqrtF : α → α) (bs : List (Ball α)) (ij : ℕ × ℕ) : List (Ball α) :=
  match bs[ij.1]?, bs[ij.2]? with
  | some b1, some b2 =>
      let r := collidePair sqrtF b1 b2
      (bs.set ij.1 r.1).set ij.2 r.2
  | _, _ => bs

/-- The index pairs `(i, j)` with `i < j < n` in the order of the nested
`for` loops of `updatePhysics`. -/
def pairIndices (n : ℕ) : List (ℕ × ℕ) :=
  (List.range n).flatMap fun i => ((List.range n).filter fun j => i < j).map fun j => (i, j)

/-- The full disc-disc collision pass of one tick. -/
def collisionPass (sqrtF : α → α) (bs : List (Ball α)) : List (Ball α) :=
  (pairIndices bs.length).foldl (pairStep sqrtF) bs

/-- Position update, wall/goal reflection, player clamping and damping of one
disc in `updatePhysics` (everything in the second loop except the
minimum-velocity snap, which `moveBall` adds). -/
def integrate (containerWidth containerHeight : α) (ball : Ball α) : Ball α :=
  let radius := ball.size / 2
  let px0 := ball.pos.x + ball.vel.x
  let py0 := ball.pos.y + ball.vel.y
  let goalX := containerWidth / 2
  let halfGoalWidth := GOAL_HEIGHT / 2
  -- top wall with goal opening
  let topHit := py0 - radius < 0 ∧
    (px0 < goalX - halfGoalWidth ∨ goalX + halfGoalWidth < px0 ∨ ball.isPlayer = true)
  let py1 := if topHit then radius else py0
  let vy1 := if topHit then -ball.vel.y * WALL_BOUNCE_FACTOR else ball.vel.y
  -- bottom wall with goal opening
  let bottomHit := containerHeight < py1 + radius ∧
    (px0 < goalX - halfGoalWidth ∨ goalX + halfGoalWidth < px0 ∨ ball.isPlayer = true)
  let py2 := if bottomHit then containerHeight - radius else py1
  let vy2 := if bottomHit then -vy1 * WALL_BOUNCE_FACTOR else vy1
  -- left and right walls (no goals)
  let leftHit := px0 - radius < 0
  let px1 := if leftHit then radius else px0
  let vx1 := if leftHit then -ball.vel.x * WALL_BOUNCE_FACTOR else ball.vel.x
  let rightHit := containerWidth < px1 + radius
  let px2 := if rightHit then containerWidth - radius else px1
  let vx2 := if rightHit then -vx1 * WALL_BOUNCE_FACTOR else vx1
  -- hard clamp for player discs
  let px3 := if ball.isPlayer then max radius (min (containerWidth - radius) px2) else px2
  let py3 := if ball.isPlayer then max radius (min (containerHeight - radius) py2) else py2
  -- damping
  { ball with pos := ⟨px3, py3⟩, vel := ⟨vx2 * DAMPING_FACTOR, vy2 * DAMPING_FACTOR⟩ }

/-- The movement check of `updatePhysics`: a damped velocity keeps the disc
"moving" iff one of its components exceeds `MIN_VELOCITY_THRESHOLD` in
absolute value. -/
def exceedsThreshold (v : Vec α) : Prop :=
  MIN_VELOCITY_THRESHOLD < |v.x| ∨ MIN_VELOCITY_THRESHOLD < |v.y|

instance (v : Vec α) : Decidable (exceedsThreshold v) := by
  unfold exceedsThreshold; infer_instance

/-- Full per-disc update of one tick: `integrate`, then snap the velocity to
zero when neither component exceeds the threshold. -/
def moveBall (containerWidth containerHeight : α) (ball : Ball α) : Ball α :=
  let b := integrate containerWidth containerHeight ball
  if exceedsThreshold b.vel then b else { b with vel := ⟨0, 0⟩ }

/-- The `isStillMoving` flag accumulated by the second loop of
`updatePhysics`. -/
def anyStillMoving (containerWidth containerHeight : α) (bs : List (Ball α)) : Bool :=
  bs.any fun b => decide (exceedsThreshold (integrate containerWidth containerHeight b).vel)

/-- Top-goal condition of `updatePhysics` (team 2 scores). -/
def topGoal (containerWidth : α) (b : Ball α) : Prop :=
  b.id = "ball" ∧ b.pos.y < 10 ∧
    containerWidth / 2 - GOAL_HEIGHT / 2 < b.pos.x ∧
    b.pos.x < containerWidth / 2 + GOAL_HEIGHT / 2

instance (w : α) (b : Ball α) : Decidable (topGoal w b) := by
  unfold topGoal; infer_instance

/-- Bottom-goal condition of `updatePhysics` (team 1 scores). -/
def bottomGoal (containerWidth containerHeight : α) (b : Ball α) : Prop :=
  b.id = "ball" ∧ containerHeight - 10 < b.pos.y ∧
    containerWidth / 2 - GOAL_HEIGHT / 2 < b.pos.x ∧
    b.pos.x < containerWidth / 2 + GOAL_HEIGHT / 2

instance (w h : α) (b : Ball α) : Decidable (bottomGoal w h b) := by
  unfold bottomGoal; infer_instance

/-- Disc list after the collision pass and the per-disc movement pass of one
tick. -/
def postMoveBalls (sqrtF : α → α) (w h : α) (s : GameState α) : List (Ball α) :=
  (collisionPass sqrtF s.balls).map (moveBall w h)

/-- The disc the goal check reads: `newBalls.find(b => b.id === "ball")`. -/
def ballAfterMove (sqrtF : α → α) (w h : α) (s : GameState α) : Option (Ball α) :=
  (postMoveBalls sqrtF w h s).find? fun b => b.id == "ball"

/-- `(top goal, bottom goal)` flags of one tick.  When no disc has id
`"ball"` the JavaScript would throw on the dereference; no reachable state
lacks the ball, and we read the flags as false there. -/
def goalFlags (sqrtF : α → α) (w h : α) (s : GameState α) : Bool × Bool :=
  match ballAfterMove sqrtF w h s with
  | some b => (decide (topGoal w b), decide (bottomGoal w h b))
  | none => (false, false)

/-- `newScore` of one tick. -/
def newScoreOf (sqrtF : α → α) (w h : α) (s : GameState α) : Score :=
  let f := goalFlags sqrtF w h s
  ⟨s.score.team1 + (if f.2 then 1 else 0), s.score.team2 + (if f.1 then 1 else 0)⟩

/-- `goalScored` of one tick. -/
def goalScoredFlag (sqrtF : α → α) (w h : α) (s : GameState α) : Bool :=
  (goalFlags sqrtF w h s).1 || (goalFlags sqrtF w h s).2

/-- The goal-branch result state of `updatePhysics`:
`{...initialGameState(prev.gameMode), score, gameMode, aiDifficulty}`. -/
def resetWithScore (gameMode aiDifficulty : String) (score : Score) : GameState α :=
  { initialGameState gameMode with
      score := score, gameMode := gameMode, aiDifficulty := aiDifficulty }

/-- Side effects of one tick that `updatePhysics` performs through separate
setters: `setCameraShake(true)` and, at the win threshold,
`setGameOver(true)`/`setWinner(...)`. -/
structure TickFx where
  cameraShake : Bool
  gameOverWinner : Option ℤ
deriving DecidableEq

/-- One full simulation tick (`updatePhysics` body in `src/App.jsx`): no-op on
settled states; otherwise collision pass, movement pass, goal detection with
score update and template reset, else turn handover once motion settles. -/
def tick (sqrtF : α → α) (w h : α) (s : GameState α) : GameState α × TickFx :=
  if s.isMoving = false then (s, ⟨false, none⟩)
  else
    let bs2 := postMoveBalls sqrtF w h s
    let isStillMoving := anyStillMoving w h (collisionPass sqrtF s.balls)
    let newScore := newScoreOf sqrtF w h s
    if goalScoredFlag sqrtF w h s = true then
      let winner : Option ℤ :=
        if 3 ≤ newScore.team1 ∨ 3 ≤ newScore.team2 then
          some (if 3 ≤ newScore.team1 then 1 else 2)
        else none
      (resetWithScore s.gameMode s.aiDifficulty newScore, ⟨true, winner⟩)
    else if isStillMoving = false then
      ({ s with balls := bs2, isMoving := false,
                currentTeam := if s.currentTeam = 1 then 2 else 1,
                selectedPlayerId := none },
       ⟨false, none⟩)
    else
      ({ s with balls := bs2, isMoving := true }, ⟨false, none⟩)

/-- The id and static fields of a disc: everything a tick may not change. -/
def staticPart (b : Ball α) : String × α × Option ℤ × Bool :=
  (b.id, b.size, b.team, b.isPlayer)

/-- The `gameStateUpdated` socket handler of the multiplayer client: a remote
snapshot replaces the local state unconditionally when its score differs
(goal authority); otherwise it is dropped while the local side is moving and
the snapshot reports motion settled; otherwise it replaces the local state. -/
def applyRemoteState (prevState newState : GameState α) : GameState α :=
  let scoreChanged := prevState.score.team1 ≠ newState.score.team1 ∨
    prevState.score.team2 ≠ newState.score.team2
  if scoreChanged then newState
  else if prevState.isMoving = true ∧ newState.isMoving = false then prevState
  else newState

end Model

section AIModel

variable {α : Type} [LinearOrderedField α] [FloorRing α]

/-- The transcendental `Math` functions the shot planner calls. -/
structure MathOps (α : Type) where
  sqrt : α → α
  atan2 : α → α → α
  sin : α → α
  cos : α → α
  pi : α

/-- JavaScript's `%` operator (remainder with the dividend's sign). -/
def jsRem (a b : α) : α :=
  if 0 ≤ a / b then a - b * (⌊a / b⌋ : ℤ) else a - b * (⌈a / b⌉ : ℤ)

/-- `Math.atan2(y, x)`, written with a supplied arctangent and π. -/
def jsAtan2 (arctanF : α → α) (piV : α) (y x : α) : α :=
  if 0 < x then arctanF (y / x)
  else if x < 0 then
    (if 0 ≤ y then arctanF (y / x) + piV else arctanF (y / x) - piV)
  else if 0 < y then piV / 2
  else if y < 0 then -(piV / 2)
  else 0

/-- `normalizeAngle` of `GameAI.js`: `((angle + π) % (2π)) - π`. -/
def normalizeAngle (ops : MathOps α) (angle : α) : α :=
  jsRem (angle + ops.pi) (2 * ops.pi) - ops.pi

/-- An obstacle record `{pos, radius}` built from an opponent disc. -/
structure Obstacle (α : Type) where
  pos : Vec α
  radius : α

/-- `isPathClear` of `GameAI.js`: no obstacle whose projection falls on the
segment lies closer to the line than `pathWidth / 2 + radius`. -/
def isPathClear (ops : MathOps α) (startPos endPos : Vec α)
    (obstacles : List (Obstacle α)) (pathWidth : α) : Prop :=
  let dx := endPos.x - startPos.x
  let dy := endPos.y - startPos.y
  let pathLength := ops.sqrt (dx * dx + dy * dy)
  let ux := dx / pathLength
  let uy := dy / pathLength
  ∀ obstacle ∈ obstacles,
    let ox := obstacle.pos.x - startPos.x
    let oy := obstacle.pos.y - startPos.y
    let projection := ox * ux + oy * uy
    projection < 0 ∨ pathLength < projection ∨
      pathWidth / 2 + obstacle.radius ≤
        ops.sqrt ((obstacle.pos.x - (startPos.x + projection * ux)) ^ 2 +
          (obstacle.pos.y - (startPos.y + projection * uy)) ^ 2)

instance (ops : MathOps α) (s e : Vec α) (l : List (Obstacle α)) (w : α) :
    Decidable (isPathClear ops s e l w) := by
  unfold isPathClear; infer_instance

/-- `isBankShotGeometricallyValid` of `GameAI.js`: the wall point must sit on a
wall, and the incoming and outgoing directions must have opposite wall-normal
components (sine signs for horizontal walls, cosine signs for vertical
walls). -/
def isBankShotGeometricallyValid (ops : MathOps α) (ballPos wallPoint targetPos : Vec α)
    (fieldWidth fieldHeight : α) : Prop :=
  let onTopWall := |wallPoint.y| < 1
  let onBottomWall := |wallPoint.y - fieldHeight| < 1
  let onLeftWall := |wallPoint.x| < 1
  let onRightWall := |wallPoint.x - fieldWidth| < 1
  let angleBallToWall := ops.atan2 (wallPoint.y - ballPos.y) (wallPoint.x - ballPos.x)
  let angleWallToTarget := ops.atan2 (targetPos.y - wallPoint.y) (targetPos.x - wallPoint.x)
  if onTopWall ∨ onBottomWall then
    ops.sin angleBallToWall * ops.sin angleWallToTarget < 0
  else if onLeftWall ∨ onRightWall then
    ops.cos angleBallToWall * ops.cos angleWallToTarget < 0
  else False

instance (ops : MathOps α) (b w t : Vec α) (fw fh : α) :
    Decidable (isBankShotGeometricallyValid ops b w t fw fh) := by
  unfold isBankShotGeometricallyValid; infer_instance

/-- A scored shot option, as tracked by the `bestShotScore`/`bestPlayer`/
`bestAngle`/`bestPower`/`bestIsBankShot`/`bestBankPoint` variables of
`calculateAIMove`. -/
structure Candidate (α : Type) where
  score : α
  playerId : String
  angle : α
  power : α
  isBankShot : Bool
  bankPoint : Option (Vec α)
deriving DecidableEq

/-- The value `calculateAIMove` returns (plus the branch markers the source
tracks in `bestIsBankShot`/`bestBankPoint`). -/
structure AIMove (α : Type) where
  playerId : String
  angle : α
  power : α
  isBankShot : Bool
  bankPoint : Option (Vec α)
deriving DecidableEq

/-- A direct-shot candidate of `calculateAIMove` (second copy, the one with
difficulty-dependent impact offset, power factor and scaling). -/
def directShotCandidate (ops : MathOps α) (aiDifficulty : String) (apsf fieldWidth : α)
    (player ball : Ball α) (target : Vec α) : Candidate α :=
  let distPlayerToBall :=
    ops.sqrt ((player.pos.x - ball.pos.x) ^ 2 + (player.pos.y - ball.pos.y) ^ 2)
  let anglePlayerToBall := ops.atan2 (ball.pos.y - player.pos.y) (ball.pos.x - player.pos.x)
  let distBallToTarget := ops.sqrt ((ball.pos.x - target.x) ^ 2 + (ball.pos.y - target.y) ^ 2)
  let angleBallToTarget := ops.atan2 (target.y - ball.pos.y) (target.x - ball.pos.x)
  let impactOffset : α :=
    if aiDifficulty = "hard" then BALL_SIZE / 2.5
    else if aiDifficulty = "medium" then BALL_SIZE / 3
    else BALL_SIZE / 4
  let impactPoint : Vec α :=
    ⟨ball.pos.x - ops.cos angleBallToTarget * impactOffset,
     ball.pos.y - ops.sin angleBallToTarget * impactOffset⟩
  let hitAngle := ops.atan2 (impactPoint.y - player.pos.y) (impactPoint.x - player.pos.x)
  let angleDifference := |normalizeAngle ops (hitAngle - anglePlayerToBall)|
  let angleScore := 1 - angleDifference / ops.pi
  let distanceFactor := 1 - distPlayerToBall / (MAX_PULL_DISTANCE * 1.5)
  let shotDifficulty := min 1 (distBallToTarget / fieldWidth * 0.7)
  let positionScore := distanceFactor * 0.4
  let accuracyScore := angleScore * 0.5
  let difficultyBonus := shotDifficulty * 0.3
  let shotScore := positionScore + accuracyScore + difficultyBonus
  let optimalBallSpeed := min (distBallToTarget * 0.5) MAX_PULL_DISTANCE
  let powerFactor : α :=
    if aiDifficulty = "hard" then 1.3 else if aiDifficulty = "medium" then 1.2 else 1.1
  let difficultyScaling : α :=
    if aiDifficulty = "hard" then 1.2 else if aiDifficulty = "medium" then 1 else 0.8
  let distanceAdjustment := 1 + distBallToTarget / fieldWidth * 0.2
  let power :=
    min MAX_PULL_DISTANCE (optimalBallSpeed * powerFactor * distanceAdjustment)
      * apsf * difficultyScaling
  ⟨shotScore, player.id, hitAngle, power, false, none⟩

/-- A bank-shot candidate of `calculateAIMove` (second copy: hard difficulty
gets a 1.2 angle-score multiplier and 1.25 power scaling). -/
def bankShotCandidate (ops : MathOps α) (aiDifficulty : String) (apsf fieldWidth : α)
    (player ball : Ball α) (wallPoint target : Vec α) : Candidate α :=
  let distPlayerToBall :=
    ops.sqrt ((player.pos.x - ball.pos.x) ^ 2 + (player.pos.y - ball.pos.y) ^ 2)
  let anglePlayerToBall := ops.atan2 (ball.pos.y - player.pos.y) (ball.pos.x - player.pos.x)
  let incomingX := wallPoint.x - ball.pos.x
  let incomingY := wallPoint.y - ball.pos.y
  let incomingLength := ops.sqrt (incomingX * incomingX + incomingY * incomingY)
  let impactPoint : Vec α :=
    ⟨ball.pos.x - incomingX / incomingLength * (BALL_SIZE / 2.5),
     ball.pos.y - incomingY / incomingLength * (BALL_SIZE / 2.5)⟩
  let hitAngle := ops.atan2 (impactPoint.y - player.pos.y) (impactPoint.x - player.pos.x)
  let angleDifference := |normalizeAngle ops (hitAngle - anglePlayerToBall)|
  let angleScoreMultiplier : α := if aiDifficulty = "hard" then 1.2 else 1
  let angleScore := (1 - angleDifference / ops.pi) * angleScoreMultiplier
  let distanceFactor := 1 - distPlayerToBall / (MAX_PULL_DISTANCE * 1.5)
  let distBallToWall :=
    ops.sqrt ((ball.pos.x - wallPoint.x) ^ 2 + (ball.pos.y - wallPoint.y) ^ 2)
  let distWallToTarget :=
    ops.sqrt ((wallPoint.x - target.x) ^ 2 + (wallPoint.y - target.y) ^ 2)
  let shotComplexity := (distBallToWall + distWallToTarget) / fieldWidth
  let difficultyScore := min 1 (shotComplexity * 0.7)
  let positionScore := distanceFactor * 0.3
  let precisionScore := angleScore * 0.4
  let complexityBonus := difficultyScore * 0.5
  let shotScore := (positionScore + precisionScore + complexityBonus) * 0.9
  let totalDistance := distPlayerToBall + distBallToWall + distWallToTarget
  let distanceCompensation := 1 + totalDistance / (fieldWidth * 1.5) * 0.4
  let bounceCompensation := 1 / (WALL_BOUNCE_FACTOR * 0.95)
  let difficultyScaling : α :=
    if aiDifficulty = "hard" then 1.25 else if aiDifficulty = "medium" then 1 else 0.8
  let power :=
    min MAX_PULL_DISTANCE (totalDistance * 0.55 * distanceCompensation * bounceCompensation)
      * apsf * difficultyScaling
  ⟨shotScore, player.id, hitAngle, power, true, some wallPoint⟩

/-- The goal-mouth target points of `calculateAIMove`: 9 (hard) or 5 points on
the left edge, plus two "strategic" points slightly inside the field on hard
difficulty. -/
def targetPointsFor (aiDifficulty : String) (goalY goalHeight : α) : List (Vec α) :=
  let numTargetPoints : ℕ := if aiDifficulty = "hard" then 9 else 5
  ((List.range numTargetPoints).map fun (i : ℕ) =>
    (⟨0, goalY - goalHeight / 2 + (i : α) * goalHeight / ((numTargetPoints : α) - 1)⟩ : Vec α))
  ++ (if aiDifficulty = "hard" then
        [⟨10, goalY - goalHeight / 3 + 1 * goalHeight / 3⟩,
         ⟨10, goalY - goalHeight / 3 + 3 * goalHeight / 3⟩]
      else [])

/-- The candidate bank points on the top and bottom walls. -/
def wallPointsFor (fieldWidth fieldHeight : α) : List (Vec α) :=
  ((List.range 5).map fun (i : ℕ) => (⟨fieldWidth * ((i : α) + 1) / 6, 0⟩ : Vec α))
  ++ ((List.range 5).map fun (i : ℕ) => (⟨fieldWidth * ((i : α) + 1) / 6, fieldHeight⟩ : Vec α))

/-- All scored candidates one AI disc contributes, in source order: the
direct-shot loop over the target points, then the bank-shot loop over wall
points × target points.  A disc farther than `MAX_PULL_DISTANCE * 1.2` from
the ball contributes nothing (the `continue`). -/
def playerCandidates (ops : MathOps α) (aiDifficulty : String) (apsf fieldWidth fieldHeight : α)
    (ball : Ball α) (obstacles : List (Obstacle α)) (targetPoints wallPoints : List (Vec α))
    (player : Ball α) : List (Candidate α) :=
  let distPlayerToBall :=
    ops.sqrt ((player.pos.x - ball.pos.x) ^ 2 + (player.pos.y - ball.pos.y) ^ 2)
  if MAX_PULL_DISTANCE * 1.2 < distPlayerToBall then []
  else
    (targetPoints.filterMap fun target =>
      if isPathClear ops ball.pos target obstacles BALL_SIZE then
        some (directShotCandidate ops aiDifficulty apsf fieldWidth player ball target)
      else none)
    ++ (wallPoints.flatMap fun wallPoint =>
        targetPoints.filterMap fun target =>
          if isBankShotGeometricallyValid ops ball.pos wallPoint target fieldWidth fieldHeight ∧
              isPathClear ops ball.pos wallPoint obstacles BALL_SIZE ∧
              isPathClear ops wallPoint target obstacles BALL_SIZE then
            some (bankShotCandidate ops aiDifficulty apsf fieldWidth player ball wallPoint target)
          else none)

/-- The `if (shotScore > bestShotScore)` update (with `bestShotScore`
initially `-Infinity`, so the first candidate always wins). -/
def betterCandidate (best : Option (Candidate α)) (c : Candidate α) : Option (Candidate α) :=
  match best with
  | none => some c
  | some b => if b.score < c.score then some c else some b

/-- The running best over the candidate stream. -/
def chooseBest (l : List (Candidate α)) : Option (Candidate α) :=
  l.foldl betterCandidate none

/-- The fallback branch of `calculateAIMove`: pick the AI disc closest to the
ball; on hard/medium aim at an ideal position offset 30° from the
ball-to-goal-centre bearing, on easy aim straight at the ball. -/
def fallbackMove (ops : MathOps α) (aiDifficulty : String) (apsf goalY : α)
    (ball : Ball α) (aiPlayers : List (Ball α)) : Option (AIMove α) :=
  let closest := aiPlayers.foldl
    (fun acc p =>
      let dist := ops.sqrt ((p.pos.x - ball.pos.x) ^ 2 + (p.pos.y - ball.pos.y) ^ 2)
      match acc with
      | none => some (p, dist)
      | some qd => if dist < qd.2 then some (p, dist) else some qd)
    none
  match closest with
  | none => none
  | some pd =>
      let closestPlayer := pd.1
      if aiDifficulty = "hard" ∨ aiDifficulty = "medium" then
        let targetAngle := ops.atan2 (goalY - ball.pos.y) (0 - ball.pos.x)
        let impactOffset := ops.pi / 6
        let hitDirection := normalizeAngle ops (targetAngle + impactOffset)
        let idealPlayerPos : Vec α :=
          ⟨ball.pos.x - ops.cos hitDirection * PLAYER_SIZE,
           ball.pos.y - ops.sin hitDirection * PLAYER_SIZE⟩
        let angle := ops.atan2 (idealPlayerPos.y - closestPlayer.pos.y)
          (idealPlayerPos.x - closestPlayer.pos.x)
        some ⟨closestPlayer.id, angle,
          MAX_PULL_DISTANCE * (if aiDifficulty = "hard" then 0.85 else 0.75) * apsf,
          false, none⟩
      else
        some ⟨closestPlayer.id,
          ops.atan2 (ball.pos.y - closestPlayer.pos.y) (ball.pos.x - closestPlayer.pos.x),
          MAX_PULL_DISTANCE * 0.65 * apsf, false, none⟩

/-- `calculateAIMove` of `src/ai/GameAI.js` (the second, difficulty-aware
copy).  `apsf` is the imported `AI_POWER_SCALING_FACTOR` (not defined in the
constants module of this snapshot); it scales powers only and never affects
which candidate wins.  When no disc has id `"ball"` the JavaScript would
throw on the dereference; we return no move there. -/
def calculateAIMove (ops : MathOps α) (apsf : α) (gameState : GameState α)
    (aiDifficulty : String) (fieldWidth fieldHeight : α) : Option (AIMove α) :=
  if gameState.isMoving = true ∨ gameState.currentTeam ≠ 2 then none
  else
    match gameState.balls.find? fun b => b.id == "ball" with
    | none => none
    | some ball =>
        let aiPlayers := gameState.balls.filter fun b => b.isPlayer && b.team == some 2
        let opponentPlayers := gameState.balls.filter fun b => b.isPlayer && b.team == some 1
        let obstacles := opponentPlayers.map fun p =>
          ({ pos := p.pos, radius := PLAYER_SIZE / 2 } : Obstacle α)
        let goalY := fieldHeight / 2
        let goalHeight : α := GOAL_HEIGHT
        let targetPoints := targetPointsFor aiDifficulty goalY goalHeight
        let wallPoints := wallPointsFor fieldWidth fieldHeight
        let allCandidates := aiPlayers.flatMap
          (playerCandidates ops aiDifficulty apsf fieldWidth fieldHeight ball obstacles
            targetPoints wallPoints)
        match chooseBest allCandidates with
        | some best => some ⟨best.playerId, best.angle, best.power, best.isBankShot, best.bankPoint⟩
        | none => fallbackMove ops aiDifficulty apsf goalY ball aiPlayers

/-- Scenario A: the ball at the centre of the 400×600 board. -/
def scenarioBall : Ball α :=
  { id := "ball", pos := ⟨200, 300⟩, vel := ⟨0, 0⟩, size := BALL_SIZE,
    color := "bg-white", isPlayer := false, team := none }

/-- Scenario A: the single AI disc, 60 px behind the ball on the line through
the left goal-mouth centre, within the planner's reach. -/
def scenarioStriker : Ball α :=
  { id := "team2-player1", pos := ⟨260, 300⟩, vel := ⟨0, 0⟩, size := PLAYER_SIZE,
    color := "bg-blue-500", isPlayer := true, team := some 2 }

/-- Scenario A of the spec, in its canonical concrete instance: ball at the
board centre of the 400×600 board, a single AI disc in line with the left
goal-mouth centre and within reach, no opponent discs. -/
def scenarioA : GameState α :=
  { balls := [scenarioBall, scenarioStriker],
    currentTeam := 2,
    selectedPlayerId := none,
    isMoving := false,
    score := ⟨0, 0⟩,
    gameMode := "vs_ai",
    aiDifficulty := "hard" }

end AIModel

/-- The planner's `MathOps` over the real numbers: the actual `Math.sqrt`,
`Math.atan2`, `Math.sin`, `Math.cos` and `Math.PI`. -/
noncomputable def realMathOps : MathOps ℝ :=
  ⟨Real.sqrt, jsAtan2 Real.arctan Real.pi, Real.sin, Real.cos, Real.pi⟩

section Scenarios

variable {α : Type} [LinearOrderedField α]

/-- Scenario B, first disc: moving right at speed `v` towards the second. -/
def headOnDisc1 (v : α) : Ball α :=
  { id := "d1", pos := ⟨0, 0⟩, vel := ⟨v, 0⟩, size := 40,
    color := "bg-red-500", isPlayer := true, team := some 1 }

/-- Scenario B, second disc: overlapping the first (centres 30 < 40 apart) and
moving left at speed `v`, so the two approach exactly head-on. -/
def headOnDisc2 (v : α) : Ball α :=
  { id := "d2", pos := ⟨30, 0⟩, vel := ⟨-v, 0⟩, size := 40,
    color := "bg-blue-500", isPlayer := true, team := some 2 }

/-- A resolving state, one tick before the ball crosses into the top goal
mouth, with team 2 one goal from the win threshold. -/
def nearGoalState : GameState α :=
  { balls :=
      [ { id := "ball", pos := ⟨200, 5⟩, vel := ⟨0, 0⟩, size := BALL_SIZE,
          color := "bg-white", isPlayer := false, team := none } ],
    currentTeam := 1,
    selectedPlayerId := none,
    isMoving := true,
    score := ⟨0, 2⟩,
    gameMode := "vs_player",
    aiDifficulty := "hard" }

/-- A local client state that is mid-resolution (`isMoving = true`). -/
def remoteLocalState : GameState α :=
  { balls := [], currentTeam := 1, selectedPlayerId := none, isMoving := true,
    score := ⟨1, 1⟩, gameMode := "vs_player", aiDifficulty := "hard" }

/-- A remote snapshot with the same score that still reports motion
(`isMoving = true`) and differs from the local state. -/
def remoteSnapshotState : GameState α :=
  { balls := [], currentTeam := 2, selectedPlayerId := none, isMoving := true,
    score := ⟨1, 1⟩, gameMode := "vs_player", aiDifficulty := "hard" }

/-- A remote snapshot with the same score that reports motion settled. -/
def remoteSettledSnapshot : GameState α :=
  { balls := [], currentTeam := 2, selectedPlayerId := none, isMoving := false,
    score := ⟨1, 1⟩, gameMode := "vs_player", aiDifficulty := "hard" }

/-- A remote snapshot carrying a different score (goal authority update). -/
def remoteScoredSnapshot : GameState α :=
  { balls := [], currentTeam := 2, selectedPlayerId := none, isMoving := false,
    score := ⟨2, 1⟩, gameMode := "vs_player", aiDifficulty := "hard" }

/-- A moving disc comfortably inside the board (Scenario C, decay phase). -/
def dampingDiscFast : Ball α :=
  { id := "a", pos := ⟨200, 300⟩, vel := ⟨1, 1⟩, size := 40,
    color := "bg-red-500", isPlayer := true, team := some 1 }

/-- A slow disc whose damped speed falls below the threshold (Scenario C,
snap tick). -/
def dampingDiscSlow : Ball α :=
  { id := "a", pos := ⟨200, 300⟩, vel := ⟨0.04, 0⟩, size := 40,
    color := "bg-red-500", isPlayer := true, team := some 1 }

/-- A disc already at rest (Scenario C, settled phase). -/
def dampingDiscStopped : Ball α :=
  { id := "a", pos := ⟨200, 300⟩, vel := ⟨0, 0⟩, size := 40,
    color := "bg-red-500", isPlayer := true, team := some 1 }

/-- A disc exactly coincident with `coincidentDisc2`. -/
def coincidentDisc1 : Ball α :=
  { id := "c1", pos := ⟨100, 100⟩, vel := ⟨1, 0⟩, size := 40,
    color := "bg-red-500", isPlayer := true, team := some 1 }

/-- A disc exactly coincident with `coincidentDisc1`. -/
def coincidentDisc2 : Ball α :=
  { id := "c2", pos := ⟨100, 100⟩, vel := ⟨0, 2⟩, size := 40,
    color := "bg-blue-500", isPlayer := true, team := some 2 }

end Scenarios

/-! ### Shared helper lemmas -/

section Helpers

variable {α : Type} [LinearOrderedField α]

/-- Writing the element already stored at an index back is a no-op. -/
theorem set_getElem_self {β : Type} (l : List β) :
    ∀ (i : ℕ) (a : β), l[i]? = some a → l.set i a = l := by
  induction l with
  | nil => intro i a h; simp at h
  | cons x xs ih =>
      intro i a h
      cases i with
      | zero => simp at h; simp [h]
      | succ n =>
          simp only [List.getElem?_cons_succ] at h
          simp [ih n a h]

/-- Overwriting an index with an element of equal image leaves the mapped
list unchanged. -/
theorem map_set_of_eq {β γ : Type} (f : β → γ) :
    ∀ (l : List β) (i : ℕ) (a b : β), l[i]? = some b → f a = f b →
      (l.set i a).map f = l.map f := by
  intro l
  induction l with
  | nil => intro i a b h _; simp at h
  | cons x xs ih =>
      intro i a b h hf
      cases i with
      | zero =>
          simp only [List.getElem?_cons_zero, Option.some.injEq] at h
          subst h
          simp [hf]
      | succ n =>
          simp only [List.getElem?_cons_succ] at h
          simp [ih n a b h hf]

/-- `collidePair` never touches the id or the static fields of either disc. -/
theorem staticPart_collidePair (sqrtF : α → α) (b1 b2 : Ball α) :
    staticPart (collidePair sqrtF b1 b2).1 = staticPart b1 ∧
    staticPart (collidePair sqrtF b1 b2).2 = staticPart b2 := by
  unfold collidePair
  dsimp only
  split_ifs <;> exact ⟨rfl, rfl⟩

/-- One pair iteration of the collision loop preserves ids and static fields
of the whole disc list. -/
theorem map_staticPart_pairStep (sqrtF : α → α) (bs : List (Ball α)) (ij : ℕ × ℕ) :
    (pairStep sqrtF bs ij).map staticPart = bs.map staticPart := by
  unfold pairStep
  rcases h1 : bs[ij.1]? with - | b1
  · rfl
  rcases h2 : bs[ij.2]? with - | b2
  · rfl
  dsimp only
  have hc := staticPart_collidePair sqrtF b1 b2
  have hlen2 : ij.2 < bs.length :=
    lt_of_not_le fun hle => by simp [List.getElem?_eq_none hle] at h2
  rcases eq_or_ne ij.1 ij.2 with heq | hne
  · have hb : b1 = b2 := by
      rw [heq] at h1; rw [h1] at h2; exact Option.some.inj h2
    have e1 : (bs.set ij.1 (collidePair sqrtF b1 b2).1)[ij.2]? =
        some (collidePair sqrtF b1 b2).1 := by
      rw [← heq]
      exact List.getElem?_set_self (by rw [heq]; exact hlen2)
    have e2 : staticPart (collidePair sqrtF b1 b2).2 =
        staticPart (collidePair sqrtF b1 b2).1 := by
      rw [hc.1, hc.2, hb]
    rw [map_set_of_eq staticPart _ _ _ _ e1 e2]
    exact map_set_of_eq staticPart _ _ _ b1 h1 hc.1
  · have e1 : (bs.set ij.1 (collidePair sqrtF b1 b2).1)[ij.2]? = some b2 := by
      rw [List.getElem?_set_ne hne]; exact h2
    rw [map_set_of_eq staticPart _ _ _ _ e1 hc.2]
    exact map_set_of_eq staticPart _ _ _ b1 h1 hc.1

/-- The whole collision pass preserves ids and static fields. -/
theorem map_staticPart_collisionPass (sqrtF : α → α) (bs : List (Ball α)) :
    (collisionPass sqrtF bs).map staticPart = bs.map staticPart := by
  unfold collisionPass
  generalize pairIndices bs.length = ps
  induction ps generalizing bs with
  | nil => rfl
  | cons p ps ih =>
      rw [List.foldl_cons, ih, map_staticPart_pairStep]

/-- The per-disc movement update preserves the id and static fields. -/
theorem staticPart_moveBall (w h : α) (b : Ball α) :
    staticPart (moveBall w h b) = staticPart b := by
  unfold moveBall integrate
  dsimp only
  split_ifs <;> rfl

/-- A disc at rest stays at rest through the movement update. -/
theorem moveBall_vel_zero (w h : α) (b : Ball α) (hv : b.vel = ⟨0, 0⟩) :
    (moveBall w h b).vel = ⟨0, 0⟩ := by
  have hx : b.vel.x = 0 := by rw [hv]
  have hy : b.vel.y = 0 := by rw [hv]
  unfold moveBall integrate exceedsThreshold
  dsimp only
  simp only [hx, hy, neg_zero, zero_mul, mul_zero, ite_self, abs_zero]

end Helpers

/-! ### C3: the collision response does not increase the sum of
normal-momentum magnitudes -/

/-- C3 (confirmed): for all rational pre-collision normal components, the
post-collision normal components of the `updatePhysics` response satisfy
`|new_v1n| + |new_v2n| ≤ |v1n| + |v2n|` with restitution `0.98`. -/
theorem collision_momentum_bound (v1n v2n : ℚ) :
    |new_v1n BALL_COLLISION_BOUNCE_FACTOR v1n v2n| +
      |new_v2n BALL_COLLISION_BOUNCE_FACTOR v1n v2n| ≤ |v1n| + |v2n| := by
  have h1 : new_v1n (BALL_COLLISION_BOUNCE_FACTOR : ℚ) v1n v2n =
      (1 / 100) * v1n + (49 / 50) * v2n := by
    unfold new_v1n BALL_COLLISION_BOUNCE_FACTOR; ring_nf
  have h2 : new_v2n (BALL_COLLISION_BOUNCE_FACTOR : ℚ) v1n v2n =
      (1 / 100) * v2n + (49 / 50) * v1n := by
    unfold new_v2n BALL_COLLISION_BOUNCE_FACTOR; ring_nf
  rw [h1, h2]
  have b1 : |(1 / 100 : ℚ) * v1n + (49 / 50) * v2n| ≤
      (1 / 100) * |v1n| + (49 / 50) * |v2n| := by
    calc |(1 / 100 : ℚ) * v1n + (49 / 50) * v2n| ≤
        |(1 / 100 : ℚ) * v1n| + |(49 / 50) * v2n| := abs_add _ _
      _ = (1 / 100) * |v1n| + (49 / 50) * |v2n| := by
        rw [abs_mul, abs_mul, abs_of_pos (show (0:ℚ) < 1 / 100 by norm_num),
          abs_of_pos (show (0:ℚ) < 49 / 50 by norm_num)]
  have b2 : |(1 / 100 : ℚ) * v2n + (49 / 50) * v1n| ≤
      (1 / 100) * |v2n| + (49 / 50) * |v1n| := by
    calc |(1 / 100 : ℚ) * v2n + (49 / 50) * v1n| ≤
        |(1 / 100 : ℚ) * v2n| + |(49 / 50) * v1n| := abs_add _ _
      _ = (1 / 100) * |v2n| + (49 / 50) * |v1n| := by
        rw [abs_mul, abs_mul, abs_of_pos (show (0:ℚ) < 1 / 100 by norm_num),
          abs_of_pos (show (0:ℚ) < 49 / 50 by norm_num)]
  have n1 := abs_nonneg v1n
  have n2 := abs_nonneg v2n
  linarith

/-! ### C9: the round reset is deterministic and idempotent -/

/-- C9 (confirmed): resetting again from a reset state (same carried score, no
intervening launch) reproduces the state exactly; the reset carries the score
and instantiates the template disc list. -/
theorem reset_idempotent (m a : String) (sc : Score) :
    resetWithScore (α := ℚ) ((resetWithScore (α := ℚ) m a sc).gameMode)
        ((resetWithScore (α := ℚ) m a sc).aiDifficulty)
        ((resetWithScore (α := ℚ) m a sc).score) = resetWithScore (α := ℚ) m a sc ∧
    (resetWithScore (α := ℚ) m a sc).balls = (initialGameState m).balls ∧
    (resetWithScore (α := ℚ) m a sc).score = sc :=
  ⟨rfl, rfl, rfl⟩

/-! ### C1: head-on equal-and-opposite collision -/

/-- For any two overlapping equal-size discs with centres `(0,0)` and `(30,0)`
approaching head-on with velocities `(v,0)` and `(-v,0)`, the collision step
produces outgoing velocities `(-0.97 v, 0)` and `(0.97 v, 0)`. -/
theorem collidePair_headOn {α : Type} [LinearOrderedField α] (sqrtF : α → α)
    (b1 b2 : Ball α) (v : α)
    (h1 : b1.pos = ⟨0, 0⟩) (h2 : b2.pos = ⟨30, 0⟩) (h3 : b1.vel = ⟨v, 0⟩)
    (h4 : b2.vel = ⟨-v, 0⟩) (h5 : b1.size = 40) (h6 : b2.size = 40)
    (hs : sqrtF 900 = 30) :
    (collidePair sqrtF b1 b2).1.vel = ⟨-(0.97 * v), 0⟩ ∧
    (collidePair sqrtF b1 b2).2.vel = ⟨0.97 * v, 0⟩ := by
  unfold collidePair
  dsimp only
  rw [h1, h2, h3, h4, h5, h6]
  dsimp only
  rw [show ((30 : α) - 0) * (30 - 0) + (0 - 0) * (0 - 0) = 900 by norm_num]
  rw [if_pos (by constructor <;> norm_num)]
  dsimp only
  rw [hs]
  simp only [new_v1n, new_v2n, BALL_COLLISION_BOUNCE_FACTOR, Vec.mk.injEq]
  refine ⟨⟨?_, ?_⟩, ?_, ?_⟩ <;> ring

/-- C1 counterexample: at `v = 1` with the exact square root, the collision
step emits normal velocity `-0.97`, which is not `-0.98 * v` as the claim
states. -/
theorem headOn_not_restitution_scaled :
    (collidePair Real.sqrt (headOnDisc1 (1 : ℝ)) (headOnDisc2 1)).1.vel.x = -(0.97 * 1) ∧
    -((0.97 : ℝ) * 1) ≠ -(0.98 * 1) := by
  constructor
  · have h900 : Real.sqrt 900 = 30 := by
      rw [show (900 : ℝ) = 30 ^ 2 by norm_num]
      exact Real.sqrt_sq (by norm_num)
    have h := collidePair_headOn Real.sqrt (headOnDisc1 (1 : ℝ)) (headOnDisc2 1) 1
      rfl rfl rfl rfl rfl rfl h900
    rw [h.1]
  · norm_num

/-- C1 (corrected): in the head-on equal-and-opposite case the collision step
negates the normal components and scales them by `0.97 = (3r - 1)/2` with
`r = 0.98`, not by the restitution factor `0.98` itself: the outgoing
velocities are `(-0.97 v, 0)` and `(0.97 v, 0)`. -/
theorem headOn_collision_response (sqrtF : ℚ → ℚ) (b1 b2 : Ball ℚ) (v : ℚ)
    (h1 : b1.pos = ⟨0, 0⟩) (h2 : b2.pos = ⟨30, 0⟩) (h3 : b1.vel = ⟨v, 0⟩)
    (h4 : b2.vel = ⟨-v, 0⟩) (h5 : b1.size = 40) (h6 : b2.size = 40)
    (hs : sqrtF 900 = 30) :
    (collidePair sqrtF b1 b2).1.vel = ⟨-(0.97 * v), 0⟩ ∧
    (collidePair sqrtF b1 b2).2.vel = ⟨0.97 * v, 0⟩ :=
  collidePair_headOn sqrtF b1 b2 v h1 h2 h3 h4 h5 h6 hs

/-- C1 witness: the corrected statement evaluated at `v = 2` with a square
root function that is exact at `900`. -/
theorem headOn_collision_response_witness :
    (collidePair (fun _ => (30 : ℚ)) (headOnDisc1 2) (headOnDisc2 2)).1.vel = ⟨-(0.97 * 2), 0⟩ ∧
    (collidePair (fun _ => (30 : ℚ)) (headOnDisc1 2) (headOnDisc2 2)).2.vel = ⟨0.97 * 2, 0⟩ :=
  headOn_collision_response (fun _ => 30) (headOnDisc1 2) (headOnDisc2 2) 2
    rfl rfl rfl rfl rfl rfl rfl

/-! ### C8: coincident discs are a no-op for the pair step -/

/-- C8 (confirmed): when the squared centre distance is at most `0.001` the
pairwise collision step leaves both discs untouched (no division by the zero
distance is reached), and the in-place write-back leaves the disc list
unchanged; the step is total on all disc configurations. -/
theorem coincident_pair_noop (sqrtF : ℚ → ℚ) (b1 b2 : Ball ℚ)
    (hd : (b2.pos.x - b1.pos.x) * (b2.pos.x - b1.pos.x) +
      (b2.pos.y - b1.pos.y) * (b2.pos.y - b1.pos.y) ≤ 0.001) :
    collidePair sqrtF b1 b2 = (b1, b2) ∧
    ∀ (bs : List (Ball ℚ)) (i j : ℕ), bs[i]? = some b1 → bs[j]? = some b2 →
      pairStep sqrtF bs (i, j) = bs := by
  have hpair : collidePair sqrtF b1 b2 = (b1, b2) := by
    unfold collidePair
    rw [if_neg]
    rintro ⟨-, hgt⟩
    exact absurd hgt (not_lt.mpr hd)
  refine ⟨hpair, fun bs i j h1 h2 => ?_⟩
  unfold pairStep
  rw [h1, h2]
  simp only [hpair]
  rw [set_getElem_self _ _ _ h1, set_getElem_self _ _ _ h2]

/-- C8 witness: two exactly coincident discs. -/
theorem coincident_pair_noop_witness :
    collidePair (fun _ => (0 : ℚ)) coincidentDisc1 coincidentDisc2 =
      (coincidentDisc1, coincidentDisc2) ∧
    pairStep (fun _ => (0 : ℚ)) [coincidentDisc1, coincidentDisc2] (0, 1) =
      [coincidentDisc1, coincidentDisc2] := by
  have h := coincident_pair_noop (fun _ => (0 : ℚ)) coincidentDisc1 coincidentDisc2
    (by norm_num [coincidentDisc1, coincidentDisc2])
  exact ⟨h.1, h.2 [coincidentDisc1, coincidentDisc2] 0 1 rfl rfl⟩

/-! ### C4: pure damping decays geometrically, then snaps to zero -/

/-- With no wall contact (the moved position stays a radius away from every
wall), one integration step is exactly `position += velocity` followed by
`velocity *= DAMPING_FACTOR`. -/
theorem integrate_of_inBounds (w h : ℚ) (b : Ball ℚ)
    (h1 : b.size / 2 ≤ b.pos.x + b.vel.x) (h2 : b.pos.x + b.vel.x ≤ w - b.size / 2)
    (h3 : b.size / 2 ≤ b.pos.y + b.vel.y) (h4 : b.pos.y + b.vel.y ≤ h - b.size / 2) :
    integrate w h b =
      { b with pos := ⟨b.pos.x + b.vel.x, b.pos.y + b.vel.y⟩,
               vel := ⟨b.vel.x * DAMPING_FACTOR, b.vel.y * DAMPING_FACTOR⟩ } := by
  unfold integrate
  dsimp only
  have c1 : ¬(b.pos.y + b.vel.y - b.size / 2 < 0 ∧
      (b.pos.x + b.vel.x < w / 2 - GOAL_HEIGHT / 2 ∨
        w / 2 + GOAL_HEIGHT / 2 < b.pos.x + b.vel.x ∨ b.isPlayer = true)) :=
    fun hc => absurd hc.1 (not_lt.mpr (by linarith))
  simp only [if_neg c1]
  have c2 : ¬(h < b.pos.y + b.vel.y + b.size / 2 ∧
      (b.pos.x + b.vel.x < w / 2 - GOAL_HEIGHT / 2 ∨
        w / 2 + GOAL_HEIGHT / 2 < b.pos.x + b.vel.x ∨ b.isPlayer = true)) :=
    fun hc => absurd hc.1 (not_lt.mpr (by linarith))
  simp only [if_neg c2]
  have c3 : ¬(b.pos.x + b.vel.x - b.size / 2 < 0) := not_lt.mpr (by linarith)
  simp only [if_neg c3]
  have c4 : ¬(w < b.pos.x + b.vel.x + b.size / 2) := not_lt.mpr (by linarith)
  simp only [if_neg c4]
  cases hb : b.isPlayer with
  | false => simp only [hb, Bool.false_eq_true, if_false]
  | true =>
      simp only [hb, if_true]
      rw [min_eq_right h2, max_eq_right h1, min_eq_right h4, max_eq_right h3]

/-- C4 (confirmed): with no collisions and no wall contact, a tick multiplies
both velocity components by `DAMPING_FACTOR` and advances the position by the
velocity; on a tick whose damped velocity has Euclidean norm below
`MIN_VELOCITY_THRESHOLD` both components become exactly zero; and a disc with
zero velocity keeps zero velocity on all later ticks. -/
theorem damping_decay_and_snap (w h : ℚ) (b : Ball ℚ)
    (h1 : b.size / 2 ≤ b.pos.x + b.vel.x) (h2 : b.pos.x + b.vel.x ≤ w - b.size / 2)
    (h3 : b.size / 2 ≤ b.pos.y + b.vel.y) (h4 : b.pos.y + b.vel.y ≤ h - b.size / 2) :
    (exceedsThreshold (⟨b.vel.x * DAMPING_FACTOR, b.vel.y * DAMPING_FACTOR⟩ : Vec ℚ) →
      moveBall w h b =
        { b with pos := ⟨b.pos.x + b.vel.x, b.pos.y + b.vel.y⟩,
                 vel := ⟨b.vel.x * DAMPING_FACTOR, b.vel.y * DAMPING_FACTOR⟩ }) ∧
    ((b.vel.x * DAMPING_FACTOR) ^ 2 + (b.vel.y * DAMPING_FACTOR) ^ 2 <
        MIN_VELOCITY_THRESHOLD ^ 2 →
      moveBall w h b =
        { b with pos := ⟨b.pos.x + b.vel.x, b.pos.y + b.vel.y⟩, vel := ⟨0, 0⟩ }) ∧
    (∀ c : Ball ℚ, c.vel = ⟨0, 0⟩ → ∀ n : ℕ, ((moveBall w h)^[n] c).vel = ⟨0, 0⟩) := by
  refine ⟨fun hexc => ?_, fun hsnap => ?_, fun c hc n => ?_⟩
  · unfold moveBall
    rw [integrate_of_inBounds w h b h1 h2 h3 h4]
    exact if_pos hexc
  · have hexc : ¬ exceedsThreshold
        (⟨b.vel.x * DAMPING_FACTOR, b.vel.y * DAMPING_FACTOR⟩ : Vec ℚ) := by
      unfold exceedsThreshold
      push_neg
      simp only [MIN_VELOCITY_THRESHOLD] at hsnap ⊢
      constructor <;> rw [abs_le] <;> constructor <;>
        nlinarith [sq_nonneg (b.vel.x * DAMPING_FACTOR), sq_nonneg (b.vel.y * DAMPING_FACTOR)]
    unfold moveBall
    rw [integrate_of_inBounds w h b h1 h2 h3 h4]
    exact if_neg hexc
  · induction n with
    | zero => simpa using hc
    | succ n ih =>
        rw [Function.iterate_succ_apply']
        exact moveBall_vel_zero w h _ ih

/-- C4 witness: the three statements evaluated on the 400×600 board, on a fast
disc, a slow disc that snaps, and a stopped disc. -/
theorem damping_decay_and_snap_witness :
    moveBall (400 : ℚ) 600 dampingDiscFast =
      { dampingDiscFast with pos := ⟨201, 301⟩, vel := ⟨0.985, 0.985⟩ } ∧
    moveBall (400 : ℚ) 600 dampingDiscSlow =
      { dampingDiscSlow with pos := ⟨200.04, 300⟩, vel := ⟨0, 0⟩ } ∧
    ((moveBall (400 : ℚ) 600)^[3] dampingDiscStopped).vel = ⟨0, 0⟩ := by
  have hexc : exceedsThreshold
      (⟨(dampingDiscFast : Ball ℚ).vel.x * DAMPING_FACTOR,
        (dampingDiscFast : Ball ℚ).vel.y * DAMPING_FACTOR⟩ : Vec ℚ) := by
    unfold exceedsThreshold
    left
    rw [show (dampingDiscFast : Ball ℚ).vel.x * DAMPING_FACTOR = 0.985 by
      norm_num [dampingDiscFast, DAMPING_FACTOR]]
    rw [abs_of_pos (by norm_num : (0 : ℚ) < 0.985)]
    norm_num [MIN_VELOCITY_THRESHOLD]
  have hfast := (damping_decay_and_snap 400 600 dampingDiscFast
    (by norm_num [dampingDiscFast]) (by norm_num [dampingDiscFast])
    (by norm_num [dampingDiscFast]) (by norm_num [dampingDiscFast])).1 hexc
  have hslow := (damping_decay_and_snap 400 600 dampingDiscSlow
    (by norm_num [dampingDiscSlow]) (by norm_num [dampingDiscSlow])
    (by norm_num [dampingDiscSlow]) (by norm_num [dampingDiscSlow])).2.1
    (by norm_num [dampingDiscSlow, DAMPING_FACTOR, MIN_VELOCITY_THRESHOLD])
  have hstop := (damping_decay_and_snap (400 : ℚ) 600 dampingDiscStopped
    (by norm_num [dampingDiscStopped]) (by norm_num [dampingDiscStopped])
    (by norm_num [dampingDiscStopped]) (by norm_num [dampingDiscStopped])).2.2
    dampingDiscStopped rfl 3
  refine ⟨hfast.trans ?_, hslow.trans ?_, hstop⟩
  · simp only [dampingDiscFast, Ball.mk.injEq, Vec.mk.injEq]
    norm_num [DAMPING_FACTOR]
  · simp only [dampingDiscSlow, Ball.mk.injEq, Vec.mk.injEq]
    norm_num

/-! ### C6: remote snapshot acceptance policy -/

/-- C6 counterexample: a snapshot with an unchanged score arriving while the
local side is mid-resolution is applied immediately when it also reports
motion (`isMoving = true`), contradicting the claim that every snapshot is
deferred while the local side is moving. -/
theorem remote_moving_snapshot_not_deferred :
    applyRemoteState (remoteLocalState : GameState ℚ) remoteSnapshotState =
      remoteSnapshotState ∧
    (remoteLocalState : GameState ℚ).isMoving = true ∧
    (remoteLocalState : GameState ℚ).score = (remoteSnapshotState : GameState ℚ).score ∧
    remoteSnapshotState ≠ (remoteLocalState : GameState ℚ) := by
  refine ⟨by decide, rfl, rfl, by decide⟩

/-- C6 (corrected): a score-changing snapshot is always accepted wholesale; a
same-score snapshot is kept back (local state unchanged) only when the local
side is mid-resolution AND the snapshot reports motion settled
(`isMoving = false`); in every other case — including a moving local side
receiving a snapshot that still reports motion — it is accepted wholesale. -/
theorem remote_snapshot_policy (p n : GameState ℚ) :
    (p.score.team1 ≠ n.score.team1 ∨ p.score.team2 ≠ n.score.team2 →
      applyRemoteState p n = n) ∧
    (p.score.team1 = n.score.team1 → p.score.team2 = n.score.team2 →
      p.isMoving = true → n.isMoving = false → applyRemoteState p n = p) ∧
    (p.score.team1 = n.score.team1 → p.score.team2 = n.score.team2 →
      (p.isMoving = false ∨ n.isMoving = true) → applyRemoteState p n = n) := by
  unfold applyRemoteState
  dsimp only
  by_cases hsc : p.score.team1 ≠ n.score.team1 ∨ p.score.team2 ≠ n.score.team2
  · rw [if_pos hsc]
    refine ⟨fun _ => rfl, fun e1 e2 _ _ => ?_, fun _ _ _ => rfl⟩
    rcases hsc with hs | hs
    · exact absurd e1 hs
    · exact absurd e2 hs
  · rw [if_neg hsc]
    by_cases hm : p.isMoving = true ∧ n.isMoving = false
    · rw [if_pos hm]
      refine ⟨fun hc => absurd hc hsc, fun _ _ _ _ => rfl, fun _ _ hor => ?_⟩
      rcases hor with hf | ht
      · rw [hf] at hm
        exact absurd hm.1 (by decide)
      · rw [ht] at hm
        exact absurd hm.2 (by decide)
    · rw [if_neg hm]
      exact ⟨fun hc => absurd hc hsc, fun _ _ hp hn => absurd ⟨hp, hn⟩ hm,
        fun _ _ _ => rfl⟩

/-- C6 witness: the three corrected branches evaluated on concrete states. -/
theorem remote_snapshot_policy_witness :
    applyRemoteState (remoteLocalState : GameState ℚ) remoteScoredSnapshot =
      remoteScoredSnapshot ∧
    applyRemoteState (remoteLocalState : GameState ℚ) remoteSettledSnapshot =
      remoteLocalState ∧
    applyRemoteState (remoteSettledSnapshot : GameState ℚ) remoteSnapshotState =
      remoteSnapshotState := by
  refine ⟨(remote_snapshot_policy _ _).1 (by decide),
    (remote_snapshot_policy _ _).2.1 rfl rfl rfl rfl,
    (remote_snapshot_policy _ _).2.2 rfl rfl (Or.inl rfl)⟩

/-! ### C7: a tick never scores for both teams -/

/-- C7 (confirmed): with the board height fixed at 600 (the template layout),
the top-goal and bottom-goal conditions exclude each other, and consequently a
tick leaves at least one team's score unchanged. -/
theorem goal_exclusivity (sqrtF : ℚ → ℚ) (w : ℚ) :
    (∀ b : Ball ℚ, ¬(topGoal w b ∧ bottomGoal w 600 b)) ∧
    ∀ s : GameState ℚ,
      (tick sqrtF w 600 s).1.score.team1 = s.score.team1 ∨
      (tick sqrtF w 600 s).1.score.team2 = s.score.team2 := by
  have hex : ∀ b : Ball ℚ, ¬(topGoal w b ∧ bottomGoal w 600 b) := by
    rintro b ⟨⟨-, hy, -⟩, ⟨-, hy2, -⟩⟩
    linarith
  refine ⟨hex, fun s => ?_⟩
  have hgoal : (newScoreOf sqrtF w 600 s).team1 = s.score.team1 ∨
      (newScoreOf sqrtF w 600 s).team2 = s.score.team2 := by
    unfold newScoreOf goalFlags
    rcases hb : ballAfterMove sqrtF w 600 s with - | b
    · left; simp
    · by_cases ht : topGoal w b
      · have hbt : ¬ bottomGoal w 600 b := fun hbg => hex b ⟨ht, hbg⟩
        left; simp [ht, hbt]
      · by_cases hbt : bottomGoal w 600 b
        · right; simp [ht, hbt]
        · left; simp [ht, hbt]
  unfold tick
  dsimp only
  split_ifs <;> first | exact Or.inl rfl | exact hgoal

/-- C7 witness: the tick contract evaluated on a concrete resolving state. -/
theorem goal_exclusivity_witness :
    (tick (fun _ => (0 : ℚ)) 400 600 nearGoalState).1.score.team1 =
      (nearGoalState : GameState ℚ).score.team1 ∨
    (tick (fun _ => (0 : ℚ)) 400 600 nearGoalState).1.score.team2 =
      (nearGoalState : GameState ℚ).score.team2 :=
  (goal_exclusivity (fun _ => 0) 400).2 nearGoalState

/-! ### C2: reaching the win threshold -/

/-- Evaluation helper: after the movement pass of the counterexample tick the
single disc sits at `(200, 5)` at rest. -/
theorem nearGoal_post :
    postMoveBalls (fun _ => (0 : ℚ)) 400 600 nearGoalState =
      [{ id := "ball", pos := ⟨200, 5⟩, vel := ⟨0, 0⟩, size := BALL_SIZE,
         color := "bg-white", isPlayer := false, team := none }] := by
  have hcoll : collisionPass (fun _ => (0 : ℚ)) nearGoalState.balls =
      nearGoalState.balls := rfl
  unfold postMoveBalls
  rw [hcoll]
  show [moveBall (400 : ℚ) 600 _] = _
  norm_num [moveBall, integrate, exceedsThreshold, nearGoalState, GOAL_HEIGHT,
    BALL_SIZE, MIN_VELOCITY_THRESHOLD, DAMPING_FACTOR, WALL_BOUNCE_FACTOR]

/-- Evaluation helper: the counterexample tick detects a top goal only. -/
theorem nearGoal_flags :
    goalFlags (fun _ => (0 : ℚ)) 400 600 nearGoalState = (true, false) := by
  unfold goalFlags ballAfterMove
  rw [nearGoal_post]
  show (decide (topGoal (400 : ℚ) _), decide (bottomGoal (400 : ℚ) 600 _)) = (true, false)
  rw [Prod.mk.injEq]
  constructor
  · rw [decide_eq_true_eq]
    refine ⟨rfl, by norm_num [BALL_SIZE], by norm_num [GOAL_HEIGHT], by norm_num [GOAL_HEIGHT]⟩
  · rw [decide_eq_false_iff_not]
    rintro ⟨-, hy, -⟩
    norm_num at hy

/-- Evaluation helper: the counterexample tick raises the score to 0–3. -/
theorem nearGoal_score :
    newScoreOf (fun _ => (0 : ℚ)) 400 600 nearGoalState = ⟨0, 3⟩ := by
  unfold newScoreOf
  rw [nearGoal_flags]
  rfl

/-- Evaluation helper: the counterexample tick registers a goal. -/
theorem nearGoal_goalScored :
    goalScoredFlag (fun _ => (0 : ℚ)) 400 600 nearGoalState = true := by
  unfold goalScoredFlag
  rw [nearGoal_flags]
  rfl

/-- Evaluation helper: the full counterexample tick returns the reset state
with score 0–3 and signals MatchOver for team 2. -/
theorem tick_nearGoal :
    tick (fun _ => (0 : ℚ)) 400 600 nearGoalState =
      (resetWithScore "vs_player" "hard" ⟨0, 3⟩, ⟨true, some 2⟩) := by
  have hwin : 3 ≤ (newScoreOf (fun _ => (0 : ℚ)) 400 600 nearGoalState).team1 ∨
      3 ≤ (newScoreOf (fun _ => (0 : ℚ)) 400 600 nearGoalState).team2 :=
    Or.inr (by rw [nearGoal_score])
  unfold tick
  dsimp only
  rw [if_neg (by simp [nearGoalState]), if_pos nearGoal_goalScored, if_pos hwin,
    if_neg (by rw [nearGoal_score]; decide), nearGoal_score]
  rfl

/-- C2 counterexample: a goal that raises team 2's score to 3 sets the
game-over winner, but the returned state's disc list IS re-instantiated to the
fresh template layout (and differs from the pre-tick discs), contradicting the
claim that the reset is superseded. -/
theorem matchOver_layout_reinstantiated :
    (tick (fun _ => (0 : ℚ)) 400 600 nearGoalState).2.gameOverWinner = some 2 ∧
    (tick (fun _ => (0 : ℚ)) 400 600 nearGoalState).1.balls =
      (initialGameState (α := ℚ) "vs_player").balls ∧
    (tick (fun _ => (0 : ℚ)) 400 600 nearGoalState).1.balls ≠ nearGoalState.balls := by
  rw [tick_nearGoal]
  refine ⟨rfl, rfl, fun h => ?_⟩
  have hlen := congrArg List.length h
  simp [resetWithScore, initialGameState, nearGoalState] at hlen

/-- C2 (corrected): when a goal raises a team's score to the win threshold 3,
the tick both enters the MatchOver state (`setGameOver`/`setWinner`) and still
performs the round reset: the disc layout IS re-instantiated from the template
and the updated score is carried over. -/
theorem matchOver_also_resets (sqrtF : ℚ → ℚ) (w h : ℚ) (s : GameState ℚ)
    (hm : s.isMoving = true)
    (hg : goalScoredFlag sqrtF w h s = true)
    (hwin : 3 ≤ (newScoreOf sqrtF w h s).team1 ∨ 3 ≤ (newScoreOf sqrtF w h s).team2) :
    (tick sqrtF w h s).2.gameOverWinner =
      some (if 3 ≤ (newScoreOf sqrtF w h s).team1 then 1 else 2) ∧
    (tick sqrtF w h s).1.balls = (initialGameState s.gameMode).balls ∧
    (tick sqrtF w h s).1.score = newScoreOf sqrtF w h s := by
  unfold tick
  dsimp only
  rw [if_neg (by simp [hm]), if_pos hg, if_pos hwin]
  exact ⟨rfl, rfl, rfl⟩

/-- C2 witness: the corrected statement evaluated on a state one tick from a
third team-2 goal. -/
theorem matchOver_also_resets_witness :
    (tick (fun _ => (0 : ℚ)) 400 600 nearGoalState).2.gameOverWinner = some 2 ∧
    (tick (fun _ => (0 : ℚ)) 400 600 nearGoalState).1.score = ⟨0, 3⟩ := by
  have h := matchOver_also_resets (fun _ => (0 : ℚ)) 400 600 nearGoalState
    rfl nearGoal_goalScored (Or.inr (by rw [nearGoal_score]))
  refine ⟨h.1.trans ?_, h.2.2.trans nearGoal_score⟩
  rw [nearGoal_score]
  decide

/-! ### C10: ticks preserve disc identity and static fields -/

/-- C10 (confirmed): starting from a state whose discs carry the template ids
and static fields, a tick preserves the number, order, ids, sizes, teams and
`isPlayer` flags of all discs — on the non-goal branches because only `pos`
and `vel` are written, on the goal branch because the discs are re-created
from the same template. -/
theorem tick_preserves_disc_identity (sqrtF : ℚ → ℚ) (w h : ℚ) (s : GameState ℚ)
    (hstatic : s.balls.map staticPart = (initialGameState s.gameMode).balls.map staticPart) :
    (tick sqrtF w h s).1.balls.map staticPart = s.balls.map staticPart := by
  have hmove : (postMoveBalls sqrtF w h s).map staticPart = s.balls.map staticPart := by
    unfold postMoveBalls
    rw [List.map_map]
    exact (List.map_congr_left fun b _ => staticPart_moveBall w h b).trans
      (map_staticPart_collisionPass sqrtF s.balls)
  unfold tick
  dsimp only
  split_ifs <;> first | rfl | exact hstatic.symm | exact hmove

/-- C10 witness: one tick on the template state set in motion. -/
theorem tick_preserves_disc_identity_witness :
    (tick (fun _ => (0 : ℚ)) 400 600
        { initialGameState "vs_ai" with isMoving := true }).1.balls.map staticPart =
      ({ initialGameState "vs_ai" with isMoving := true } : GameState ℚ).balls.map staticPart :=
  tick_preserves_disc_identity (fun _ => 0) 400 600
    { initialGameState "vs_ai" with isMoving := true } rfl

/-! ### C5: the shot planner in Scenario A -/

/-- Folding the strict-improvement update returns a candidate from the list
(or the seed) whose score dominates the seed and every list element. -/
theorem chooseBest_go {α : Type} [LinearOrderedField α] :
    ∀ (l : List (Candidate α)) (b : Candidate α),
      ∃ c, l.foldl betterCandidate (some b) = some c ∧ (c = b ∨ c ∈ l) ∧
        b.score ≤ c.score ∧ ∀ d ∈ l, d.score ≤ c.score := by
  intro l
  induction l with
  | nil => exact fun b => ⟨b, rfl, Or.inl rfl, le_refl _, by simp⟩
  | cons a l ih =>
      intro b
      rw [List.foldl_cons]
      have hstep : betterCandidate (some b) a =
          if b.score < a.score then some a else some b := rfl
      rw [hstep]
      split_ifs with hba
      · obtain ⟨c, hc, hmem, hle, hall⟩ := ih a
        refine ⟨c, hc, Or.inr ?_, le_trans (le_of_lt hba) hle, fun d hd => ?_⟩
        · rcases hmem with rfl | hmem
          · exact List.mem_cons_self _ _
          · exact List.mem_cons_of_mem _ hmem
        · rcases List.mem_cons.mp hd with rfl | hd
          · exact hle
          · exact hall d hd
      · obtain ⟨c, hc, hmem, hle, hall⟩ := ih b
        refine ⟨c, hc, ?_, hle, fun d hd => ?_⟩
        · rcases hmem with rfl | hmem
          · exact Or.inl rfl
          · exact Or.inr (List.mem_cons_of_mem _ hmem)
        · rcases List.mem_cons.mp hd with rfl | hd
          · exact le_trans (not_lt.mp hba) hle
          · exact hall d hd

/-- On a non-empty candidate list, the planner's running best returns a
member whose score dominates the whole list. -/
theorem chooseBest_spec {α : Type} [LinearOrderedField α] (l : List (Candidate α))
    (c0 : Candidate α) (h : c0 ∈ l) :
    ∃ c, chooseBest l = some c ∧ c ∈ l ∧ ∀ d ∈ l, d.score ≤ c.score := by
  cases l with
  | nil => simp at h
  | cons a l =>
      unfold chooseBest
      rw [List.foldl_cons]
      have hstep : betterCandidate (none : Option (Candidate α)) a = some a := rfl
      rw [hstep]
      obtain ⟨c, hc, hmem, hle, hall⟩ := chooseBest_go l a
      refine ⟨c, hc, ?_, fun d hd => ?_⟩
      · rcases hmem with rfl | hmem
        · exact List.mem_cons_self _ _
        · exact List.mem_cons_of_mem _ hmem
      · rcases List.mem_cons.mp hd with rfl | hd
        · exact hle
        · exact hall d hd

/-- If some bank candidate strictly outscores every non-bank candidate, the
planner's best candidate is a bank shot. -/
theorem chooseBest_picks_bank {α : Type} [LinearOrderedField α] (l : List (Candidate α))
    (cStar : Candidate α) (hmem : cStar ∈ l)
    (hstrict : ∀ d ∈ l, d.isBankShot = false → d.score < cStar.score) :
    ∃ c, chooseBest l = some c ∧ c ∈ l ∧ c.isBankShot = true := by
  obtain ⟨c, hc, hcmem, hmax⟩ := chooseBest_spec l cStar hmem
  refine ⟨c, hc, hcmem, ?_⟩
  by_contra hfalse
  have hb : c.isBankShot = false := by
    cases hcb : c.isBankShot
    · rfl
    · exact absurd hcb hfalse
  exact absurd (hmax cStar hmem) (not_le.mpr (hstrict c hcmem hb))

/-- Square roots of the form `√(x/9)` split as `√x / 3`. -/
theorem sqrt_div_nine (x : ℝ) (hx : 0 ≤ x) :
    Real.sqrt (x / 9) = Real.sqrt x / 3 := by
  rw [show x / 9 = x * (1/3)^2 by ring, Real.sqrt_mul hx, Real.sqrt_sq (by norm_num)]
  ring

/-- The striker sits exactly 60 px from the ball. -/
theorem sqrt_threesixhundred : Real.sqrt (3600 : ℝ) = 60 := by
  rw [show (3600:ℝ) = 60 ^ 2 by norm_num]
  exact Real.sqrt_sq (by norm_num)

/-- `Math.atan2` of the striker-to-ball direction (pointing exactly left). -/
theorem scenarioA_bearing :
    jsAtan2 Real.arctan Real.pi ((300:ℝ) - 300) (200 - 260) = Real.pi := by
  unfold jsAtan2
  rw [if_neg (by norm_num), if_pos (by norm_num), if_pos (by norm_num)]
  rw [show ((300:ℝ) - 300) / (200 - 260) = 0 by norm_num, Real.arctan_zero, zero_add]

/-- `normalizeAngle` is the identity on `(-π, π)`. -/
theorem normalizeAngle_eq_self (ops : MathOps ℝ) (hops : ops.pi = Real.pi) (θ : ℝ)
    (hlow : -Real.pi < θ) (hhigh : θ < Real.pi) : normalizeAngle ops θ = θ := by
  have hpi := Real.pi_pos
  unfold normalizeAngle jsRem
  rw [hops]
  have hnum : 0 < θ + Real.pi := by linarith
  have hden : 0 < 2 * Real.pi := by linarith
  have hq : 0 ≤ (θ + Real.pi) / (2 * Real.pi) := le_of_lt (div_pos hnum hden)
  rw [if_pos hq]
  have hfloor : ⌊(θ + Real.pi) / (2 * Real.pi)⌋ = 0 := by
    rw [Int.floor_eq_zero_iff]
    refine ⟨hq, ?_⟩
    rw [div_lt_one hden]
    linarith
  rw [hfloor]
  push_cast
  ring

/-- Numeric bound for the direct-shot score formula of Scenario A. -/
theorem direct_score_le (A S : ℝ) (hA : 0 ≤ A) (hS : S ≤ 206.2) :
    (1 - 60 / (150 * 1.5)) * 0.4 + (1 - A / Real.pi) * 0.5 + min 1 (S / 400 * 0.7) * 0.3
      ≤ 0.91 := by
  have hpi := Real.pi_pos
  have h1 : 1 - A / Real.pi ≤ 1 := by
    have : 0 ≤ A / Real.pi := div_nonneg hA (le_of_lt hpi)
    linarith
  have h2 : min (1:ℝ) (S / 400 * 0.7) ≤ S / 400 * 0.7 := min_le_right _ _
  have h3 : S / 400 * 0.7 ≤ 206.2 / 400 * 0.7 := by nlinarith
  nlinarith [h1, h2, h3]

/-- The squared ball-to-target distance of every Scenario-A target point is at
most `42500`. -/
theorem scenarioA_target_dsq (t : Vec ℝ)
    (ht : t ∈ targetPointsFor (α := ℝ) "hard" (600/2) GOAL_HEIGHT) :
    ((200:ℝ) - t.x) ^ 2 + ((300:ℝ) - t.y) ^ 2 ≤ 42500 := by
  have h9 : (if ("hard":String) = "hard" then (9:ℕ) else 5) = 9 := if_pos rfl
  have hlist : targetPointsFor (α := ℝ) "hard" (600/2) GOAL_HEIGHT =
      ((List.range 9).map fun (i : ℕ) =>
        (⟨0, 600/2 - GOAL_HEIGHT/2 + (i:ℝ) * GOAL_HEIGHT / (((9:ℕ):ℝ) - 1)⟩ : Vec ℝ))
      ++ [⟨10, 600/2 - GOAL_HEIGHT/3 + 1 * GOAL_HEIGHT/3⟩,
          ⟨10, 600/2 - GOAL_HEIGHT/3 + 3 * GOAL_HEIGHT/3⟩] := by
    unfold targetPointsFor
    dsimp only
    rw [h9, if_pos rfl]
  rw [hlist] at ht
  rcases List.mem_append.mp ht with h | h
  · obtain ⟨i, hi, rfl⟩ := List.mem_map.mp h
    rw [List.mem_range] at hi
    interval_cases i <;> norm_num [GOAL_HEIGHT]
  · rcases List.mem_cons.mp h with rfl | h
    · norm_num [GOAL_HEIGHT]
    · rcases List.mem_cons.mp h with rfl | h
      · norm_num [GOAL_HEIGHT]
      · exact absurd h (List.not_mem_nil _)

/-- Every direct-shot candidate of Scenario A scores at most `0.91`. -/
theorem scenarioA_direct_le (t : Vec ℝ)
    (ht : t ∈ targetPointsFor (α := ℝ) "hard" (600/2) GOAL_HEIGHT) :
    (directShotCandidate realMathOps "hard" 1 400 scenarioStriker scenarioBall t).score
      ≤ 0.91 := by
  have hdsq := scenarioA_target_dsq t ht
  have h42500 : Real.sqrt (42500:ℝ) ≤ 206.2 :=
    le_of_lt ((Real.sqrt_lt' (by norm_num)).mpr (by norm_num))
  unfold directShotCandidate
  simp only [realMathOps, scenarioStriker, scenarioBall, MAX_PULL_DISTANCE, BALL_SIZE]
  rw [show ((260:ℝ) - 200) ^ 2 + ((300:ℝ) - 300) ^ 2 = 3600 by norm_num,
    sqrt_threesixhundred]
  exact direct_score_le _ _ (abs_nonneg _) (le_trans (Real.sqrt_le_sqrt hdsq) h42500)

/-- The list equation for the scenario's target points on hard difficulty. -/
theorem targetPoints_hard :
    targetPointsFor (α := ℝ) "hard" (600/2) GOAL_HEIGHT =
      ((List.range 9).map fun (i : ℕ) =>
        (⟨0, 600/2 - GOAL_HEIGHT/2 + (i:ℝ) * GOAL_HEIGHT / (((9:ℕ):ℝ) - 1)⟩ : Vec ℝ))
      ++ [⟨10, 600/2 - GOAL_HEIGHT/3 + 1 * GOAL_HEIGHT/3⟩,
          ⟨10, 600/2 - GOAL_HEIGHT/3 + 3 * GOAL_HEIGHT/3⟩] := by
  have h9 : (if ("hard":String) = "hard" then (9:ℕ) else 5) = 9 := if_pos rfl
  unfold targetPointsFor
  dsimp only
  rw [h9, if_pos rfl]

/-- The first wall point of the top wall is `(200/3, 0)`. -/
theorem bankWall_mem : (⟨200/3, 0⟩ : Vec ℝ) ∈ wallPointsFor (α := ℝ) 400 600 := by
  unfold wallPointsFor
  refine List.mem_append.mpr (Or.inl (List.mem_map.mpr ⟨0, List.mem_range.mpr ?_, ?_⟩))
  · norm_num
  · show (⟨400 * (((0:ℕ):ℝ) + 1) / 6, 0⟩ : Vec ℝ) = ⟨200/3, 0⟩
    rw [Vec.mk.injEq]
    norm_num

/-- The lowest goal-mouth sample point `(0, 350)` is a target point. -/
theorem bankTarget_mem :
    (⟨0, 350⟩ : Vec ℝ) ∈ targetPointsFor (α := ℝ) "hard" (600/2) GOAL_HEIGHT := by
  rw [targetPoints_hard]
  refine List.mem_append.mpr (Or.inl (List.mem_map.mpr ⟨8, List.mem_range.mpr ?_, ?_⟩))
  · norm_num
  · show (⟨0, 600/2 - GOAL_HEIGHT/2 + ((8:ℕ):ℝ) * GOAL_HEIGHT / (((9:ℕ):ℝ) - 1)⟩ : Vec ℝ)
      = ⟨0, 350⟩
    rw [Vec.mk.injEq]
    norm_num [GOAL_HEIGHT]

/-- With no opponent discs every path is clear. -/
theorem scenarioA_paths_clear (a b : Vec ℝ) (pw : ℝ) :
    isPathClear realMathOps a b [] pw := by
  unfold isPathClear
  dsimp only
  intro o ho
  exact absurd ho (List.not_mem_nil o)

/-- The bank geometry ball `(200,300)` → wall `(200/3, 0)` → target `(0, 350)`
is valid: the two legs cross the top wall's normal in opposite senses. -/
theorem scenarioA_bank_valid :
    isBankShotGeometricallyValid realMathOps (scenarioBall : Ball ℝ).pos ⟨200/3, 0⟩ ⟨0, 350⟩
      400 600 := by
  unfold isBankShotGeometricallyValid
  simp only [realMathOps, scenarioBall]
  rw [if_pos (Or.inl (show |(0:ℝ)| < 1 by norm_num))]
  have h1 : jsAtan2 Real.arctan Real.pi ((0:ℝ) - 300) (200/3 - 200) =
      Real.arctan (((0:ℝ) - 300)/(200/3 - 200)) - Real.pi := by
    unfold jsAtan2
    rw [if_neg (by norm_num), if_pos (by norm_num), if_neg (by norm_num)]
  have h2 : jsAtan2 Real.arctan Real.pi ((350:ℝ) - 0) (0 - 200/3) =
      Real.arctan (((350:ℝ) - 0)/(0 - 200/3)) + Real.pi := by
    unfold jsAtan2
    rw [if_neg (by norm_num), if_pos (by norm_num), if_pos (by norm_num)]
  rw [h1, h2, Real.sin_sub_pi, Real.sin_antiperiodic]
  rw [show ((0:ℝ) - 300)/(200/3 - 200) = 9/4 by norm_num,
    show ((350:ℝ) - 0)/(0 - 200/3) = -(21/4) by norm_num]
  rw [Real.arctan_neg, Real.sin_neg, neg_neg]
  have ha : 0 < Real.sin (Real.arctan (9/4)) := by
    rw [Real.sin_arctan]
    positivity
  have hb : 0 < Real.sin (Real.arctan (21/4)) := by
    rw [Real.sin_arctan]
    positivity
  nlinarith [ha, hb]

/-- The bank candidate via `(200/3, 0)` and `(0, 350)` scores above `0.92`. -/
theorem scenarioA_bank_score :
    0.92 < (bankShotCandidate realMathOps "hard" 1 400 scenarioStriker scenarioBall
      ⟨200/3, 0⟩ ⟨0, 350⟩).score := by
  have hpi := Real.pi_pos
  have hs984 : (984:ℝ) < Real.sqrt 970000 := (Real.lt_sqrt (by norm_num)).mpr (by norm_num)
  have hs0 : (0:ℝ) < Real.sqrt 970000 := lt_trans (by norm_num) hs984
  have ht1068 : (1068:ℝ) < Real.sqrt 1142500 := (Real.lt_sqrt (by norm_num)).mpr (by norm_num)
  unfold bankShotCandidate
  simp only [realMathOps, scenarioStriker, scenarioBall, MAX_PULL_DISTANCE, BALL_SIZE,
    WALL_BOUNCE_FACTOR]
  rw [show ((260:ℝ) - 200) ^ 2 + ((300:ℝ) - 300) ^ 2 = 3600 by norm_num,
    sqrt_threesixhundred]
  rw [show ((200/3:ℝ) - 200) * ((200/3:ℝ) - 200) + ((0:ℝ) - 300) * ((0:ℝ) - 300)
      = 970000/9 by norm_num]
  rw [show ((200:ℝ) - 200/3) ^ 2 + ((300:ℝ) - 0) ^ 2 = 970000/9 by norm_num]
  rw [sqrt_div_nine 970000 (by norm_num)]
  rw [show ((200/3:ℝ) - 0) ^ 2 + ((0:ℝ) - 350) ^ 2 = 1142500/9 by norm_num]
  rw [sqrt_div_nine 1142500 (by norm_num)]
  rw [show (300:ℝ) - ((0:ℝ) - 300) / (Real.sqrt 970000 / 3) * (30 / 2.5) - 300
      = 10800 / Real.sqrt 970000 by field_simp; ring]
  rw [show (200:ℝ) - ((200/3:ℝ) - 200) / (Real.sqrt 970000 / 3) * (30 / 2.5) - 260
      = 4800 / Real.sqrt 970000 - 60 by field_simp; ring]
  have hxneg : (4800:ℝ) / Real.sqrt 970000 - 60 < 0 := by
    have h1 : (4800:ℝ) / Real.sqrt 970000 < 60 := (div_lt_iff hs0).mpr (by nlinarith)
    linarith
  have hyge : (0:ℝ) ≤ 10800 / Real.sqrt 970000 := by positivity
  rw [show jsAtan2 Real.arctan Real.pi (10800 / Real.sqrt 970000)
        (4800 / Real.sqrt 970000 - 60)
      = Real.arctan ((10800 / Real.sqrt 970000) / (4800 / Real.sqrt 970000 - 60)) + Real.pi
      from by
    unfold jsAtan2
    rw [if_neg (by linarith), if_pos hxneg, if_pos hyge]]
  rw [scenarioA_bearing]
  rw [show Real.arctan ((10800 / Real.sqrt 970000) / (4800 / Real.sqrt 970000 - 60))
        + Real.pi - Real.pi
      = Real.arctan ((10800 / Real.sqrt 970000) / (4800 / Real.sqrt 970000 - 60)) by ring]
  have hden : (0:ℝ) < 60 * Real.sqrt 970000 - 4800 := by nlinarith
  have hrho : ((10800:ℝ) / Real.sqrt 970000) / (4800 / Real.sqrt 970000 - 60)
      = -(10800 / (60 * Real.sqrt 970000 - 4800)) := by
    have hsne : Real.sqrt 970000 ≠ 0 := ne_of_gt hs0
    have h1 : (4800:ℝ) / Real.sqrt 970000 - 60
        = -((60 * Real.sqrt 970000 - 4800) / Real.sqrt 970000) := by
      rw [← neg_div, neg_sub, sub_div, mul_div_assoc, div_self hsne, mul_one]
    rw [h1, div_neg, div_div_eq_mul_div, div_mul_cancel₀ _ hsne]
  rw [hrho, Real.arctan_neg]
  have hrho1 : (0:ℝ) < 10800 / (60 * Real.sqrt 970000 - 4800) := div_pos (by norm_num) hden
  have hrho2 : (10800:ℝ) / (60 * Real.sqrt 970000 - 4800) < 1 :=
    (div_lt_one hden).mpr (by nlinarith)
  have hu0 : 0 < Real.arctan (10800 / (60 * Real.sqrt 970000 - 4800)) := by
    have h := Real.arctan_strictMono hrho1
    rwa [Real.arctan_zero] at h
  have hu4 : Real.arctan (10800 / (60 * Real.sqrt 970000 - 4800)) < Real.pi / 4 := by
    have h := Real.arctan_strictMono hrho2
    rwa [Real.arctan_one] at h
  rw [normalizeAngle_eq_self _ rfl _ (by linarith) (by linarith)]
  rw [abs_neg, abs_of_pos hu0]
  simp only [if_true]
  rw [min_eq_left (show (1:ℝ) ≤ (Real.sqrt 970000 / 3 + Real.sqrt 1142500 / 3) / 400 * 0.7
    by nlinarith)]
  have hq : Real.arctan (10800 / (60 * Real.sqrt 970000 - 4800)) / Real.pi < 1/4 := by
    rw [div_lt_iff hpi]
    linarith
  have hq0 : 0 ≤ Real.arctan (10800 / (60 * Real.sqrt 970000 - 4800)) / Real.pi :=
    div_nonneg (le_of_lt hu0) (le_of_lt hpi)
  nlinarith [hq, hq0]


/-- In the canonical Scenario-A instance the planner's best candidate is a bank
shot: the wall-point/target pair above is admissible and outscores every
direct candidate. -/
theorem scenarioA_planner_banks :
    ∃ m : AIMove ℝ, calculateAIMove realMathOps 1 scenarioA "hard" 400 600 = some m ∧
      m.isBankShot = true ∧ m.bankPoint ≠ none := by
  have hguard : ¬(MAX_PULL_DISTANCE * 1.2 < realMathOps.sqrt
      (((scenarioStriker : Ball ℝ).pos.x - (scenarioBall : Ball ℝ).pos.x) ^ 2 +
        ((scenarioStriker : Ball ℝ).pos.y - (scenarioBall : Ball ℝ).pos.y) ^ 2)) := by
    simp only [realMathOps, scenarioStriker, scenarioBall, MAX_PULL_DISTANCE]
    rw [show ((260:ℝ) - 200) ^ 2 + ((300:ℝ) - 300) ^ 2 = 3600 by norm_num,
      sqrt_threesixhundred]
    norm_num
  have hLeq : playerCandidates realMathOps "hard" 1 400 600 scenarioBall []
      (targetPointsFor "hard" (600/2) GOAL_HEIGHT) (wallPointsFor 400 600) scenarioStriker =
      ((targetPointsFor (α := ℝ) "hard" (600/2) GOAL_HEIGHT).filterMap fun target =>
        if isPathClear realMathOps (scenarioBall : Ball ℝ).pos target [] BALL_SIZE then
          some (directShotCandidate realMathOps "hard" 1 400 scenarioStriker scenarioBall
            target)
        else none)
      ++ ((wallPointsFor (α := ℝ) 400 600).flatMap fun wallPoint =>
          (targetPointsFor (α := ℝ) "hard" (600/2) GOAL_HEIGHT).filterMap fun target =>
            if isBankShotGeometricallyValid realMathOps (scenarioBall : Ball ℝ).pos wallPoint
                target 400 600 ∧
                isPathClear realMathOps (scenarioBall : Ball ℝ).pos wallPoint [] BALL_SIZE ∧
                isPathClear realMathOps wallPoint target [] BALL_SIZE then
              some (bankShotCandidate realMathOps "hard" 1 400 scenarioStriker scenarioBall
                wallPoint target)
            else none) := by
    unfold playerCandidates
    dsimp only
    rw [if_neg hguard]
  have hmemStar : bankShotCandidate realMathOps "hard" 1 400 scenarioStriker scenarioBall
      (⟨200/3, 0⟩ : Vec ℝ) ⟨0, 350⟩ ∈ playerCandidates realMathOps "hard" 1 400 600 scenarioBall []
      (targetPointsFor "hard" (600/2) GOAL_HEIGHT) (wallPointsFor 400 600) scenarioStriker ++ ([] : List (Candidate ℝ)) := by
    rw [List.append_nil, hLeq]
    refine List.mem_append.mpr (Or.inr (List.mem_flatMap.mpr ⟨⟨200/3, 0⟩, bankWall_mem,
      List.mem_filterMap.mpr ⟨⟨0, 350⟩, bankTarget_mem, ?_⟩⟩))
    rw [if_pos ⟨scenarioA_bank_valid, scenarioA_paths_clear _ _ _,
      scenarioA_paths_clear _ _ _⟩]
  have hstrict : ∀ d ∈ playerCandidates realMathOps "hard" 1 400 600 scenarioBall []
      (targetPointsFor "hard" (600/2) GOAL_HEIGHT) (wallPointsFor 400 600) scenarioStriker ++ ([] : List (Candidate ℝ)), d.isBankShot = false →
      d.score < (bankShotCandidate realMathOps "hard" 1 400 scenarioStriker scenarioBall
        (⟨200/3, 0⟩ : Vec ℝ) ⟨0, 350⟩).score := by
    intro d hd hbank
    rw [List.append_nil, hLeq] at hd
    rcases List.mem_append.mp hd with hdir | hbnk
    · obtain ⟨t, ht, hdt⟩ := List.mem_filterMap.mp hdir
      by_cases hpc : isPathClear realMathOps (scenarioBall : Ball ℝ).pos t [] BALL_SIZE
      · rw [if_pos hpc] at hdt
        have hdeq := Option.some.inj hdt
        have hle := scenarioA_direct_le t ht
        rw [hdeq] at hle
        have hgt := scenarioA_bank_score
        linarith
      · rw [if_neg hpc] at hdt
        exact absurd hdt (by simp)
    · obtain ⟨w, hw, hmem2⟩ := List.mem_flatMap.mp hbnk
      obtain ⟨t, ht, hdt⟩ := List.mem_filterMap.mp hmem2
      by_cases hcond : isBankShotGeometricallyValid realMathOps (scenarioBall : Ball ℝ).pos w
          t 400 600 ∧
          isPathClear realMathOps (scenarioBall : Ball ℝ).pos w [] BALL_SIZE ∧
          isPathClear realMathOps w t [] BALL_SIZE
      · rw [if_pos hcond] at hdt
        have hdeq := Option.some.inj hdt
        have : d.isBankShot = true := by rw [← hdeq]; rfl
        rw [this] at hbank
        exact absurd hbank (by simp)
      · rw [if_neg hcond] at hdt
        exact absurd hdt (by simp)
  have hbp : ∀ d ∈ playerCandidates realMathOps "hard" 1 400 600 scenarioBall []
      (targetPointsFor "hard" (600/2) GOAL_HEIGHT) (wallPointsFor 400 600) scenarioStriker ++ ([] : List (Candidate ℝ)), d.isBankShot = true →
      d.bankPoint ≠ none := by
    intro d hd hbank
    rw [List.append_nil, hLeq] at hd
    rcases List.mem_append.mp hd with hdir | hbnk
    · obtain ⟨t, ht, hdt⟩ := List.mem_filterMap.mp hdir
      by_cases hpc : isPathClear realMathOps (scenarioBall : Ball ℝ).pos t [] BALL_SIZE
      · rw [if_pos hpc] at hdt
        have hdeq := Option.some.inj hdt
        have : d.isBankShot = false := by rw [← hdeq]; rfl
        rw [this] at hbank
        exact absurd hbank (by simp)
      · rw [if_neg hpc] at hdt
        exact absurd hdt (by simp)
    · obtain ⟨w, hw, hmem2⟩ := List.mem_flatMap.mp hbnk
      obtain ⟨t, ht, hdt⟩ := List.mem_filterMap.mp hmem2
      by_cases hcond : isBankShotGeometricallyValid realMathOps (scenarioBall : Ball ℝ).pos w
          t 400 600 ∧
          isPathClear realMathOps (scenarioBall : Ball ℝ).pos w [] BALL_SIZE ∧
          isPathClear realMathOps w t [] BALL_SIZE
      · rw [if_pos hcond] at hdt
        have hdeq := Option.some.inj hdt
        have hb : (bankShotCandidate realMathOps "hard" 1 400 scenarioStriker scenarioBall
            w t).bankPoint = some w := rfl
        rw [← hdeq, hb]
        simp
      · rw [if_neg hcond] at hdt
        exact absurd hdt (by simp)
  obtain ⟨c, hc, hcmem, hcbank⟩ := chooseBest_picks_bank
    (playerCandidates realMathOps "hard" 1 400 600 scenarioBall []
      (targetPointsFor "hard" (600/2) GOAL_HEIGHT) (wallPointsFor 400 600) scenarioStriker ++ ([] : List (Candidate ℝ))) _ hmemStar hstrict
  refine ⟨⟨c.playerId, c.angle, c.power, c.isBankShot, c.bankPoint⟩, ?_, hcbank,
    hbp c hcmem hcbank⟩
  unfold calculateAIMove
  rw [if_neg (by decide)]
  rw [show List.find? (fun b => b.id == "ball") (scenarioA : GameState ℝ).balls
      = some scenarioBall from rfl]
  dsimp only
  rw [show List.filter (fun b => b.isPlayer && b.team == some 2)
      (scenarioA : GameState ℝ).balls = [scenarioStriker] from rfl]
  rw [show List.filter (fun b => b.isPlayer && b.team == some 1)
      (scenarioA : GameState ℝ).balls = ([] : List (Ball ℝ)) from rfl]
  simp only [List.map_nil, List.flatMap_cons, List.flatMap_nil]
  rw [hc]

/-- C5 (counterexample): in the canonical Scenario-A instance — ball at the
centre of the 400×600 board, one hard-difficulty AI disc in line with the goal
mouth centre and within reach, no obstacles — the planner does NOT choose the
direct-shot branch: the returned move is a bank shot with a non-null bank
point, contradicting the spec's "viaBankPoint = null, not a bank shot". -/
theorem scenarioA_not_direct :
    ¬ ∀ m : AIMove ℝ, calculateAIMove realMathOps 1 scenarioA "hard" 400 600 = some m →
      m.isBankShot = false ∧ m.bankPoint = none := by
  intro hall
  obtain ⟨m, hm, hbank, hbp⟩ := scenarioA_planner_banks
  obtain ⟨hf, _⟩ := hall m hm
  rw [hbank] at hf
  exact Bool.noConfusion hf

/-- C5 (amended): in the canonical Scenario-A instance the hard-difficulty
planner returns a move, and that move takes the bank-shot branch — its
`isBankShot` flag is set and its bank point is non-null — because on hard
difficulty the 1.2× angle-score multiplier together with the distance-based
difficulty score lets the best wall-bounce candidate outscore every direct
candidate. -/
theorem scenarioA_bank_shot :
    ∃ m : AIMove ℝ, calculateAIMove realMathOps 1 scenarioA "hard" 400 600 = some m ∧
      m.isBankShot = true ∧ m.bankPoint ≠ none :=
  scenarioA_planner_banks

end Slingshot
